import Mathlib

/-!
# linodego: NodeBalancer and InstanceConfig clients, and the provider's destroy checks

A shallow embedding of

* `vendor/github.com/chiefy/linodego/nodebalancer.go`
* `vendor/github.com/chiefy/linodego/instance_configs.go`
* `linode/resource_linode_nodebalancer_test.go`
* `linode/resource_linode_nodebalancer_config_test.go`

Go values are embedded as follows.

* `int` is `Int`, `string` is `String`, a pointer used as an optional value (`*string`, `*int`,
  `*time.Time`, `*InstanceConfigHelpers`) is an `Option`.
* A slice of record pointers (`[]*NodeBalancer`) is a `List Ptr` read through a `Heap`, so that the
  in-place update done by `fixDates` through a pointer is visible to whoever holds the same slice.
* A Go result pair `(*T, error)` is a pair `Option T × Option GoError`; a result pair
  `([]*T, error)` is `List Ptr × Option GoError`, the nil slice being `[]`.
* A `[]byte` JSON document is kept as the document itself (`JSON`), not as its text.
* The HTTP exchange (`resty` followed by `coupleAPIErrors`) is a `Net`: a log of the requests
  issued so far and a reply that may depend on that log.
-/

namespace Linodego

/-! ## JSON documents and the `encoding/json` field rules -/

/-- A JSON document, restricted to the shapes the option sets of the two files produce. -/
inductive JSON where
  | null : JSON
  | bool (b : Bool) : JSON
  | num (n : Int) : JSON
  | str (s : String) : JSON
  | obj (members : List (String × JSON)) : JSON

/-- The member names of a JSON object, in order; no names for any other document. -/
def JSON.keys : JSON → List String
  | .obj members => members.map Prod.fst
  | _ => []

/-- The members of a JSON object; none for any other document. -/
def JSON.members : JSON → List (String × JSON)
  | .obj members => members
  | _ => []

/-- A field without `omitempty`: always one member. -/
def field (key : String) (v : JSON) : List (String × JSON) := [(key, v)]

/-- A `string` field tagged `omitempty`: dropped when the string is empty. -/
def fieldStringOmitEmpty (key : String) (s : String) : List (String × JSON) :=
  if s = "" then [] else [(key, .str s)]

/-- An `int` field tagged `omitempty`: dropped when the number is zero. -/
def fieldIntOmitEmpty (key : String) (n : Int) : List (String × JSON) :=
  if n = 0 then [] else [(key, .num n)]

/-- A pointer field tagged `omitempty`: dropped when the pointer is nil, and otherwise the
encoding of what it points to, whatever that value is. -/
def fieldPtrOmitEmpty {α : Type} (key : String) (enc : α → JSON) (p : Option α) :
    List (String × JSON) :=
  match p with
  | none => []
  | some a => [(key, enc a)]

/-! ## nodebalancer.go: option sets -/

/-- `NodeBalancerCreateOptions` (nodebalancer.go, lines 47-51). -/
structure NodeBalancerCreateOptions where
  Label : Option String := none
  Region : String := ""
  ClientConnThrottle : Option Int := none
  deriving DecidableEq, Repr

/-- `NodeBalancerUpdateOptions` (nodebalancer.go, lines 54-57). -/
structure NodeBalancerUpdateOptions where
  Label : Option String := none
  ClientConnThrottle : Option Int := none
  deriving DecidableEq, Repr

/-- `json.Marshal` of a `NodeBalancerCreateOptions`, by its field tags. -/
def NodeBalancerCreateOptions.toJSON (o : NodeBalancerCreateOptions) : JSON :=
  .obj (fieldPtrOmitEmpty "label" JSON.str o.Label
    ++ fieldStringOmitEmpty "region" o.Region
    ++ fieldPtrOmitEmpty "client_conn_throttle" JSON.num o.ClientConnThrottle)

/-- `json.Marshal` of a `NodeBalancerUpdateOptions`, by its field tags. -/
def NodeBalancerUpdateOptions.toJSON (o : NodeBalancerUpdateOptions) : JSON :=
  .obj (fieldPtrOmitEmpty "label" JSON.str o.Label
    ++ fieldPtrOmitEmpty "client_conn_throttle" JSON.num o.ClientConnThrottle)

/-- ASCII case folding of a member name, as `json.Unmarshal` applies it when no field tag
matches a member name exactly. -/
def foldName (s : String) : String := String.mk (s.data.map Char.toLower)

/-- Whether `json.Unmarshal` stores the member named `key` in the field tagged `tag`, given all
the tags of the struct: an exact match wins, otherwise a match up to case. -/
def matchesTag (tags : List String) (tag key : String) : Bool :=
  if tags.contains key then key == tag
  else (tags.find? (fun t => foldName t == foldName key)) == some tag

/-- The tags of `NodeBalancerUpdateOptions`, in field order. -/
def nodeBalancerUpdateTags : List String := ["label", "client_conn_throttle"]

/-- One step of `json.Unmarshal` into a `NodeBalancerUpdateOptions`: the member `(key, v)` is
stored in the field it matches (`null` resets a pointer field to nil), is skipped when it matches
no field, and is a type error when the value does not fit the field. -/
def NodeBalancerUpdateOptions.setMember (o : NodeBalancerUpdateOptions) (m : String × JSON) :
    Option NodeBalancerUpdateOptions :=
  if matchesTag nodeBalancerUpdateTags "label" m.1 then
    match m.2 with
    | .str s => some { o with Label := some s }
    | .null => some { o with Label := none }
    | _ => none
  else if matchesTag nodeBalancerUpdateTags "client_conn_throttle" m.1 then
    match m.2 with
    | .num n => some { o with ClientConnThrottle := some n }
    | .null => some { o with ClientConnThrottle := none }
    | _ => none
  else some o

/-- The members of an object stored one after the other, a later member overwriting an earlier
one; `none` as soon as one of them is a type error. -/
def NodeBalancerUpdateOptions.setMembers :
    NodeBalancerUpdateOptions → List (String × JSON) → Option NodeBalancerUpdateOptions
  | o, [] => some o
  | o, m :: ms =>
    match o.setMember m with
    | none => none
    | some o1 => NodeBalancerUpdateOptions.setMembers o1 ms

/-- `json.Unmarshal` of a document into a zero `NodeBalancerUpdateOptions`: an object is
stored member by member, `null` leaves the zero value, any other document is a type error. -/
def NodeBalancerUpdateOptions.fromJSON : JSON → Option NodeBalancerUpdateOptions
  | .obj members => NodeBalancerUpdateOptions.setMembers {} members
  | .null => some {}
  | _ => none

/-! ## instance_configs.go: option sets -/

/-- `InstanceConfigDevice` (instance_configs.go, lines 31-34). -/
structure InstanceConfigDevice where
  DiskID : Int := 0
  VolumeID : Int := 0
  deriving DecidableEq, Repr

/-- `InstanceConfigDeviceMap` (instance_configs.go, lines 36-45). -/
structure InstanceConfigDeviceMap where
  SDA : Option InstanceConfigDevice := none
  SDB : Option InstanceConfigDevice := none
  SDC : Option InstanceConfigDevice := none
  SDD : Option InstanceConfigDevice := none
  SDE : Option InstanceConfigDevice := none
  SDF : Option InstanceConfigDevice := none
  SDG : Option InstanceConfigDevice := none
  SDH : Option InstanceConfigDevice := none
  deriving DecidableEq, Repr

/-- `InstanceConfigHelpers` (instance_configs.go, lines 47-53). -/
structure InstanceConfigHelpers where
  UpdateDBDisabled : Bool := false
  Distro : Bool := false
  ModulesDep : Bool := false
  Network : Bool := false
  DevTmpFsAutomount : Bool := false
  deriving DecidableEq, Repr

/-- `InstanceConfigCreateOptions` (instance_configs.go, lines 62-73). -/
structure InstanceConfigCreateOptions where
  Label : String := ""
  Comments : String := ""
  Devices : Option InstanceConfigDeviceMap := none
  Helpers : Option InstanceConfigHelpers := none
  MemoryLimit : Int := 0
  Kernel : String := ""
  InitRD : Int := 0
  RootDevice : String := ""
  RunLevel : String := ""
  VirtMode : String := ""
  deriving DecidableEq, Repr

/-- `type InstanceConfigUpdateOptions InstanceConfigCreateOptions` (instance_configs.go,
line 76): the same fields with the same tags. -/
abbrev InstanceConfigUpdateOptions := InstanceConfigCreateOptions

/-- `json.Marshal` of an `InstanceConfigDevice`, by its field tags. -/
def InstanceConfigDevice.toJSON (d : InstanceConfigDevice) : JSON :=
  .obj (fieldIntOmitEmpty "disk_id" d.DiskID ++ fieldIntOmitEmpty "volume_id" d.VolumeID)

/-- `json.Marshal` of an `InstanceConfigDeviceMap`, by its field tags. -/
def InstanceConfigDeviceMap.toJSON (m : InstanceConfigDeviceMap) : JSON :=
  .obj (fieldPtrOmitEmpty "sda" InstanceConfigDevice.toJSON m.SDA
    ++ fieldPtrOmitEmpty "sdb" InstanceConfigDevice.toJSON m.SDB
    ++ fieldPtrOmitEmpty "sdc" InstanceConfigDevice.toJSON m.SDC
    ++ fieldPtrOmitEmpty "sdd" InstanceConfigDevice.toJSON m.SDD
    ++ fieldPtrOmitEmpty "sde" InstanceConfigDevice.toJSON m.SDE
    ++ fieldPtrOmitEmpty "sdf" InstanceConfigDevice.toJSON m.SDF
    ++ fieldPtrOmitEmpty "sdg" InstanceConfigDevice.toJSON m.SDG
    ++ fieldPtrOmitEmpty "sdh" InstanceConfigDevice.toJSON m.SDH)

/-- `json.Marshal` of an `InstanceConfigHelpers`, by its field tags (none has `omitempty`). -/
def InstanceConfigHelpers.toJSON (h : InstanceConfigHelpers) : JSON :=
  .obj (field "updatedb_disabled" (.bool h.UpdateDBDisabled)
    ++ field "distro" (.bool h.Distro)
    ++ field "modules_dep" (.bool h.ModulesDep)
    ++ field "network" (.bool h.Network)
    ++ field "devtmpfs_automount" (.bool h.DevTmpFsAutomount))

/-- `json.Marshal` of an `InstanceConfigCreateOptions` (and so of an
`InstanceConfigUpdateOptions`), by its field tags: `memory_limit` and `init_rd` carry no
`omitempty`. -/
def InstanceConfigCreateOptions.toJSON (o : InstanceConfigCreateOptions) : JSON :=
  .obj (fieldStringOmitEmpty "label" o.Label
    ++ fieldStringOmitEmpty "comments" o.Comments
    ++ fieldPtrOmitEmpty "devices" InstanceConfigDeviceMap.toJSON o.Devices
    ++ fieldPtrOmitEmpty "helpers" InstanceConfigHelpers.toJSON o.Helpers
    ++ field "memory_limit" (.num o.MemoryLimit)
    ++ fieldStringOmitEmpty "kernel" o.Kernel
    ++ field "init_rd" (.num o.InitRD)
    ++ fieldStringOmitEmpty "root_device" o.RootDevice
    ++ fieldStringOmitEmpty "run_level" o.RunLevel
    ++ fieldStringOmitEmpty "virt_mode" o.VirtMode)

/-! ## Errors, time values and the package functions the two files call -/

/-- A Go `error` value, by its dynamic type. The struct `linodego.Error` is declared in another
file of the package; the provider's checks read its field `Code`, and the spec gives it a status
code and a message. An error is

* `api`: a `*linodego.Error`, a pointer to that struct, which is what the client itself builds
  (`NewError` returns the pointer, and `coupleAPIErrors` returns what `NewError` built), so this
  is the type of a 404 or a 500 reported by a call of the client;
* `value`: a `linodego.Error`, the struct itself, a type distinct from the pointer type for a
  type assertion;
* `other`: an error of any other type, which carries no code. -/
inductive GoError where
  | api (Code : Int) (Message : String) : GoError
  | value (Code : Int) (Message : String) : GoError
  | other (Message : String) : GoError
  deriving DecidableEq, Repr

/-- A `time.Time`, kept as its calendar fields. -/
structure Time where
  year : Nat
  month : Nat
  day : Nat
  hour : Nat
  minute : Nat
  second : Nat
  deriving DecidableEq, Repr

/-- The package-level functions of linodego that the two files call and that are defined in
other files: `parseDates(dateStr) (*time.Time, error)` and `NewError(err)`. They are
parameters of every definition that uses them. -/
structure Lib where
  parseDates : String → Option Time × Option GoError
  NewError : GoError → GoError

/-- How a call ends: it returns a value, or it panics with an error. -/
inductive Outcome (α : Type) where
  | ret (a : α) : Outcome α
  | panic (err : GoError) : Outcome α

/-! ## Decimal numbers: `%d` and `strconv.Atoi` -/

/-- The character of a decimal digit. -/
def digitChar (d : Nat) : Char := Char.ofNat (48 + d)

/-- The decimal digits of `n`, most significant first, in front of `acc`; `fuel` bounds the
number of digits. -/
def decimalAux : Nat → Nat → List Char → List Char
  | 0, _, acc => acc
  | fuel + 1, n, acc =>
    if n < 10 then digitChar n :: acc
    else decimalAux fuel (n / 10) (digitChar (n % 10) :: acc)

/-- The decimal rendering of a natural number (`0` is rendered `0`). -/
def decimal (n : Nat) : List Char := decimalAux (n + 1) n []

/-- The verb `%d` applied to an `int`: a minus sign for a negative number, then its digits. -/
def fmtInt (i : Int) : String :=
  if i < 0 then String.mk ('-' :: decimal i.natAbs) else String.mk (decimal i.toNat)

/-- The call `fmt.Sprintf("%s/%d", e, id)`. -/
def sprintfPath (e : String) (id : Int) : String := e ++ "/" ++ fmtInt id

/-- The number a string of decimal digits denotes. -/
def digitsValue (ds : List Char) : Nat :=
  ds.foldl (fun acc c => acc * 10 + (c.toNat - 48)) 0

/-- The call `strconv.Quote(s)` as far as the error texts of `strconv` need it: the string
between double quotes, a double quote and a backslash inside it preceded by a backslash (the
escapes of control and non-printing characters are left out). -/
def goQuote (s : String) : String :=
  String.mk (Char.ofNat 34 ::
    (s.data.flatMap fun c =>
      if c = Char.ofNat 34 ∨ c = Char.ofNat 92 then [Char.ofNat 92, c] else [c])
    ++ [Char.ofNat 34])

/-- The call `strconv.Atoi(s)` on a 64-bit platform, both results: an optional sign followed by
one or more decimal digits is accepted; anything else gives `0` and a syntax error; a number
outside the `int` range gives the nearest bound and a range error. The error is a
`*strconv.NumError`, whose text quotes the input. -/
def atoi (s : String) : Int × Option GoError :=
  let signed : Bool × List Char :=
    match s.data with
    | '-' :: rest => (true, rest)
    | '+' :: rest => (false, rest)
    | cs => (false, cs)
  if signed.2 = [] ∨ signed.2.all Char.isDigit = false then
    (0, some (.other ("strconv.Atoi: parsing " ++ goQuote s ++ ": invalid syntax")))
  else if signed.1 then
    if 2 ^ 63 < digitsValue signed.2 then
      (-(2 ^ 63), some (.other ("strconv.Atoi: parsing " ++ goQuote s ++ ": value out of range")))
    else (-(digitsValue signed.2 : Int), none)
  else
    if 2 ^ 63 ≤ digitsValue signed.2 then
      (2 ^ 63 - 1, some (.other ("strconv.Atoi: parsing " ++ goQuote s ++ ": value out of range")))
    else ((digitsValue signed.2 : Int), none)

/-! ## The client and the HTTP exchange -/

/-- A resource family of the client, as far as the two files use it: `Endpoint()` and
`endpointWithID(id)`, each returning an endpoint or an error. -/
structure Resource where
  Endpoint : Except GoError String
  endpointWithID : Int → Except GoError String

/-- The `Client`, as far as the two files use it. -/
structure Client where
  NodeBalancers : Resource
  InstanceConfigs : Resource

/-- The HTTP methods the two files use. -/
inductive Method where
  | GET : Method
  | POST : Method
  | PUT : Method
  | DELETE : Method
  deriving DecidableEq, Repr

/-- A request as built on `c.R(ctx)`: the method and URL of the final call, the headers set
with `SetHeader` and the body set with `SetBody`. -/
structure Request where
  method : Method
  url : String
  headers : List (String × String) := []
  body : Option JSON := none

/-- The remote side as seen through `coupleAPIErrors`: the requests issued so far, and for a
request its outcome given those issued before it, either an error or the response result decoded
into the type handed to `SetResult`. -/
structure Net (ρ : Type) where
  log : List Request
  reply : List Request → Request → Except GoError ρ

/-- Issuing one request: it is answered from the log so far and then added to the log. -/
def Net.send {ρ : Type} (net : Net ρ) (req : Request) : Except GoError ρ × Net ρ :=
  (net.reply net.log req, { net with log := net.log ++ [req] })

/-! ## nodebalancer.go: records, paged responses and operations -/

/-- `NodeBalancerTransfer` (nodebalancer.go, lines 37-44). -/
structure NodeBalancerTransfer where
  Total : Option Int := none
  Out : Option Int := none
  In : Option Int := none
  deriving DecidableEq, Repr

/-- `NodeBalancer` (nodebalancer.go, lines 13-35). -/
structure NodeBalancer where
  CreatedStr : String := ""
  UpdatedStr : String := ""
  ID : Int := 0
  Label : Option String := none
  Region : String := ""
  Hostname : Option String := none
  IPv4 : Option String := none
  IPv6 : Option String := none
  ClientConnThrottle : Int := 0
  Transfer : NodeBalancerTransfer := {}
  Created : Option Time := none
  Updated : Option Time := none
  deriving DecidableEq, Repr

/-- A pointer to a record. -/
abbrev Ptr := Nat

/-- The records that pointers point to. -/
abbrev Heap (ρ : Type) := Ptr → ρ

/-- Modelled from the spec: `PageOptions`, embedded by pointer in every paged response, is
declared in a file of the package that is not among the sources; the spec's list envelope gives
it the numbers `page`, `pages` and `results`. No definition below reads its fields. -/
structure PageOptions where
  Page : Int := 0
  Pages : Int := 0
  Results : Int := 0
  deriving DecidableEq, Repr

/-- `NodeBalancersPagedResponse` (nodebalancer.go, lines 75-78). -/
structure NodeBalancersPagedResponse where
  PageOptions : Option PageOptions := none
  Data : List Ptr := []
  deriving DecidableEq, Repr

/-- `NodeBalancersPagedResponse.endpoint` (nodebalancer.go, lines 80-86). -/
def NodeBalancersPagedResponse.endpoint (c : Client) : Outcome String :=
  match c.NodeBalancers.Endpoint with
  | .error err => .panic err
  | .ok endpoint => .ret endpoint

/-- `NodeBalancersPagedResponse.appendData` (nodebalancer.go, lines 88-90). -/
def NodeBalancersPagedResponse.appendData (resp r : NodeBalancersPagedResponse) :
    NodeBalancersPagedResponse :=
  { resp with Data := resp.Data ++ r.Data }

/-- The type of `c.listHelper(ctx, &response, opts)` for NodeBalancers, which is defined in
another file: from the response handed in and the records allocated so far it gives the
response filled in, the error it reports and the records, unless it panics. -/
abbrev NodeBalancersListHelper :=
  NodeBalancersPagedResponse → Heap NodeBalancer →
    Outcome ((NodeBalancersPagedResponse × Option GoError) × Heap NodeBalancer)

/-- `ListNodeBalancers` (nodebalancer.go, lines 97-104). -/
def ListNodeBalancers (listHelper : NodeBalancersListHelper) (heap : Heap NodeBalancer) :
    Outcome ((List Ptr × Option GoError) × Heap NodeBalancer) :=
  let response : NodeBalancersPagedResponse := {}
  match listHelper response heap with
  | .panic err => .panic err
  | .ret ((_, some err), heap) => .ret (([], some err), heap)
  | .ret ((response, none), heap) => .ret ((response.Data, none), heap)

/-- `NodeBalancer.fixDates` (nodebalancer.go, lines 106-110). -/
def NodeBalancer.fixDates (lib : Lib) (n : NodeBalancer) : NodeBalancer :=
  let n := { n with Created := (lib.parseDates n.CreatedStr).1 }
  let n := { n with Updated := (lib.parseDates n.UpdatedStr).1 }
  n

/-- `GetNodeBalancer` (nodebalancer.go, lines 113-126). -/
def GetNodeBalancer (lib : Lib) (c : Client) (net : Net NodeBalancer) (id : Int) :
    (Option NodeBalancer × Option GoError) × Net NodeBalancer :=
  match c.NodeBalancers.Endpoint with
  | .error err => ((none, some err), net)
  | .ok e =>
    let e := sprintfPath e id
    match net.send { method := .GET, url := e } with
    | (.error err, net) => ((none, some err), net)
    | (.ok r, net) => ((some (r.fixDates lib), none), net)

/-- `CreateNodeBalancer` (nodebalancer.go, lines 129-153); `marshal` is `json.Marshal` at the
type of the argument, a pointer to the create options. -/
def CreateNodeBalancer (lib : Lib) (c : Client)
    (marshal : Option NodeBalancerCreateOptions → Except GoError JSON)
    (net : Net NodeBalancer) (nodebalancer : Option NodeBalancerCreateOptions) :
    (Option NodeBalancer × Option GoError) × Net NodeBalancer :=
  match c.NodeBalancers.Endpoint with
  | .error err => ((none, some err), net)
  | .ok e =>
    match marshal nodebalancer with
    | .error err => ((none, some (lib.NewError err)), net)
    | .ok body =>
      match net.send { method := .POST, url := e,
                       headers := [("Content-Type", "application/json")], body := some body } with
      | (.error err, net) => ((none, some err), net)
      | (.ok r, net) => ((some (r.fixDates lib), none), net)

/-- `UpdateNodeBalancer` (nodebalancer.go, lines 156-180); `marshal` is `json.Marshal` at the
type of the update options. -/
def UpdateNodeBalancer (lib : Lib) (c : Client)
    (marshal : NodeBalancerUpdateOptions → Except GoError JSON)
    (net : Net NodeBalancer) (id : Int) (updateOpts : NodeBalancerUpdateOptions) :
    (Option NodeBalancer × Option GoError) × Net NodeBalancer :=
  match c.NodeBalancers.Endpoint with
  | .error err => ((none, some err), net)
  | .ok e =>
    let e := sprintfPath e id
    match marshal updateOpts with
    | .error err => ((none, some (lib.NewError err)), net)
    | .ok body =>
      match net.send { method := .PUT, url := e, body := some body } with
      | (.error err, net) => ((none, some err), net)
      | (.ok r, net) => ((some (r.fixDates lib), none), net)

/-- `DeleteNodeBalancer` (nodebalancer.go, lines 183-195). -/
def DeleteNodeBalancer {ρ : Type} (c : Client) (net : Net ρ) (id : Int) :
    Option GoError × Net ρ :=
  match c.NodeBalancers.Endpoint with
  | .error err => (some err, net)
  | .ok e =>
    let e := sprintfPath e id
    match net.send { method := .DELETE, url := e } with
    | (.error err, net) => (some err, net)
    | (.ok _, net) => (none, net)

/-- The encoder `json.Marshal` is at a pointer to `NodeBalancerCreateOptions`: `null` for the
nil pointer, never an error. -/
def marshalNodeBalancerCreateOptions (o : Option NodeBalancerCreateOptions) :
    Except GoError JSON :=
  match o with
  | none => .ok .null
  | some o => .ok o.toJSON

/-- The encoder `json.Marshal` is at `NodeBalancerUpdateOptions`: never an error. -/
def marshalNodeBalancerUpdateOptions (o : NodeBalancerUpdateOptions) : Except GoError JSON :=
  .ok o.toJSON

/-- `NodeBalancer.GetCreateOptions` (nodebalancer.go, lines 59-65). -/
def NodeBalancer.GetCreateOptions (i : NodeBalancer) : NodeBalancerCreateOptions :=
  { Label := i.Label, Region := i.Region, ClientConnThrottle := some i.ClientConnThrottle }

/-- `NodeBalancer.GetUpdateOptions` (nodebalancer.go, lines 67-72). -/
def NodeBalancer.GetUpdateOptions (i : NodeBalancer) : NodeBalancerUpdateOptions :=
  { Label := i.Label, ClientConnThrottle := some i.ClientConnThrottle }

/-! ## instance_configs.go: records, paged responses and operations -/

/-- `InstanceConfig` (instance_configs.go, lines 12-29). -/
structure InstanceConfig where
  CreatedStr : String := ""
  UpdatedStr : String := ""
  ID : Int := 0
  Label : String := ""
  Comments : String := ""
  Devices : Option InstanceConfigDeviceMap := none
  Helpers : Option InstanceConfigHelpers := none
  MemoryLimit : Int := 0
  Kernel : String := ""
  InitRD : Int := 0
  RootDevice : String := ""
  RunLevel : String := ""
  VirtMode : String := ""
  Created : Option Time := none
  Updated : Option Time := none
  deriving DecidableEq, Repr

/-- `InstanceConfigsPagedResponse` (instance_configs.go, lines 56-59). -/
structure InstanceConfigsPagedResponse where
  PageOptions : Option PageOptions := none
  Data : List Ptr := []
  deriving DecidableEq, Repr

/-- `InstanceConfig.GetCreateOptions` (instance_configs.go, lines 78-91). -/
def InstanceConfig.GetCreateOptions (i : InstanceConfig) : InstanceConfigCreateOptions :=
  { Label := i.Label, Comments := i.Comments, Devices := i.Devices, Helpers := i.Helpers,
    MemoryLimit := i.MemoryLimit, Kernel := i.Kernel, InitRD := i.InitRD,
    RootDevice := i.RootDevice, RunLevel := i.RunLevel, VirtMode := i.VirtMode }

/-- `InstanceConfig.GetUpdateOptions` (instance_configs.go, lines 93-106). -/
def InstanceConfig.GetUpdateOptions (i : InstanceConfig) : InstanceConfigUpdateOptions :=
  { Label := i.Label, Comments := i.Comments, Devices := i.Devices, Helpers := i.Helpers,
    MemoryLimit := i.MemoryLimit, Kernel := i.Kernel, InitRD := i.InitRD,
    RootDevice := i.RootDevice, RunLevel := i.RunLevel, VirtMode := i.VirtMode }

/-- `InstanceConfigsPagedResponse.endpointWithID` (instance_configs.go, lines 109-115). -/
def InstanceConfigsPagedResponse.endpointWithID (c : Client) (id : Int) : Outcome String :=
  match c.InstanceConfigs.endpointWithID id with
  | .error err => .panic err
  | .ok endpoint => .ret endpoint

/-- `InstanceConfigsPagedResponse.appendData` (instance_configs.go, lines 118-120). -/
def InstanceConfigsPagedResponse.appendData (resp r : InstanceConfigsPagedResponse) :
    InstanceConfigsPagedResponse :=
  { resp with Data := resp.Data ++ r.Data }

/-- `InstanceConfig.fixDates` (instance_configs.go, lines 141-145). -/
def InstanceConfig.fixDates (lib : Lib) (i : InstanceConfig) : InstanceConfig :=
  let i := { i with Created := (lib.parseDates i.CreatedStr).1 }
  let i := { i with Updated := (lib.parseDates i.UpdatedStr).1 }
  i

/-- The type of `c.listHelperWithID(ctx, &response, linodeID, opts)` for InstanceConfigs, which
is defined in another file: from the response handed in, the parent identifier and the records
allocated so far it gives the response filled in, the error it reports and the records, unless
it panics. -/
abbrev InstanceConfigsListHelper :=
  InstanceConfigsPagedResponse → Int → Heap InstanceConfig →
    Outcome ((InstanceConfigsPagedResponse × Option GoError) × Heap InstanceConfig)

/-- The loop `for _, el := range response.Data { el.fixDates() }` of `ListInstanceConfigs`:
each record is updated in place, through its pointer, in slice order. -/
def fixDatesEach (lib : Lib) : List Ptr → Heap InstanceConfig → Heap InstanceConfig
  | [], heap => heap
  | el :: rest, heap => fixDatesEach lib rest (Function.update heap el ((heap el).fixDates lib))

/-- `ListInstanceConfigs` (instance_configs.go, lines 128-138). -/
def ListInstanceConfigs (lib : Lib) (listHelperWithID : InstanceConfigsListHelper)
    (heap : Heap InstanceConfig) (linodeID : Int) :
    Outcome ((List Ptr × Option GoError) × Heap InstanceConfig) :=
  let response : InstanceConfigsPagedResponse := {}
  match listHelperWithID response linodeID heap with
  | .panic err => .panic err
  | .ret ((response, err), heap) =>
    let heap := fixDatesEach lib response.Data heap
    match err with
    | some err => .ret (([], some err), heap)
    | none => .ret ((response.Data, none), heap)

/-- `GetInstanceConfig` (instance_configs.go, lines 148-159). -/
def GetInstanceConfig (lib : Lib) (c : Client) (net : Net InstanceConfig)
    (linodeID configID : Int) : (Option InstanceConfig × Option GoError) × Net InstanceConfig :=
  match c.InstanceConfigs.endpointWithID linodeID with
  | .error err => ((none, some err), net)
  | .ok e =>
    let e := sprintfPath e configID
    match net.send { method := .GET, url := e } with
    | (.error err, net) => ((none, some err), net)
    | (.ok r, net) => ((some (r.fixDates lib), none), net)

/-- `CreateInstanceConfig` (instance_configs.go, lines 162-186); `marshal` is `json.Marshal`
at the type of the create options. -/
def CreateInstanceConfig (lib : Lib) (c : Client)
    (marshal : InstanceConfigCreateOptions → Except GoError JSON)
    (net : Net InstanceConfig) (linodeID : Int) (createOpts : InstanceConfigCreateOptions) :
    (Option InstanceConfig × Option GoError) × Net InstanceConfig :=
  match c.InstanceConfigs.endpointWithID linodeID with
  | .error err => ((none, some err), net)
  | .ok e =>
    match marshal createOpts with
    | .error err => ((none, some err), net)
    | .ok body =>
      match net.send { method := .POST, url := e, body := some body } with
      | (.error err, net) => ((none, some err), net)
      | (.ok r, net) => ((some (r.fixDates lib), none), net)

/-- `UpdateInstanceConfig` (instance_configs.go, lines 189-213); `marshal` is `json.Marshal`
at the type of the update options. -/
def UpdateInstanceConfig (lib : Lib) (c : Client)
    (marshal : InstanceConfigUpdateOptions → Except GoError JSON)
    (net : Net InstanceConfig) (linodeID configID : Int)
    (updateOpts : InstanceConfigUpdateOptions) :
    (Option InstanceConfig × Option GoError) × Net InstanceConfig :=
  match c.InstanceConfigs.endpointWithID linodeID with
  | .error err => ((none, some err), net)
  | .ok e =>
    let e := sprintfPath e configID
    match marshal updateOpts with
    | .error err => ((none, some err), net)
    | .ok body =>
      match net.send { method := .PUT, url := e, body := some body } with
      | (.error err, net) => ((none, some err), net)
      | (.ok r, net) => ((some (r.fixDates lib), none), net)

/-- `RenameInstanceConfig` (instance_configs.go, lines 216-218). -/
def RenameInstanceConfig (lib : Lib) (c : Client)
    (marshal : InstanceConfigUpdateOptions → Except GoError JSON)
    (net : Net InstanceConfig) (linodeID configID : Int) (label : String) :
    (Option InstanceConfig × Option GoError) × Net InstanceConfig :=
  UpdateInstanceConfig lib c marshal net linodeID configID { Label := label }

/-- `DeleteInstanceConfig` (instance_configs.go, lines 221-233). -/
def DeleteInstanceConfig {ρ : Type} (c : Client) (net : Net ρ) (linodeID configID : Int) :
    Option GoError × Net ρ :=
  match c.InstanceConfigs.endpointWithID linodeID with
  | .error err => (some err, net)
  | .ok e =>
    let e := sprintfPath e configID
    match net.send { method := .DELETE, url := e } with
    | (.error err, net) => (some err, net)
    | (.ok _, net) => (none, net)

/-- The encoder `json.Marshal` is at `InstanceConfigCreateOptions` and at
`InstanceConfigUpdateOptions`: never an error. -/
def marshalInstanceConfigOptions (o : InstanceConfigCreateOptions) : Except GoError JSON :=
  .ok o.toJSON

/-! ## The provider's destroy checks -/

/-- `terraform.InstanceState`, as far as the checks read it: the ID and the attribute map. -/
structure InstanceState where
  ID : String := ""
  Attributes : List (String × String) := []
  deriving DecidableEq, Repr

/-- `terraform.ResourceState`, as far as the checks read it. -/
structure ResourceState where
  type : String
  Primary : InstanceState := {}
  deriving DecidableEq, Repr

/-- `terraform.State`, as far as the checks read it: the resources of the root module, in the
order in which the `range` over the map visits them. -/
structure State where
  Resources : List ResourceState := []
  deriving DecidableEq, Repr

/-- Indexing a Go `map[string]string`: the value stored under the key, or the empty string. -/
def mapIndex (m : List (String × String)) (key : String) : String :=
  match m.find? (fun kv => kv.1 == key) with
  | some kv => kv.2
  | none => ""

/-- A `for _, rs := range ... { body }` loop whose body either returns an error from the
enclosing function or falls through to the next resource; `σ` is the state the body threads. -/
def rangeResources {σ : Type} (body : ResourceState → σ → Option GoError × σ) :
    List ResourceState → σ → Option GoError × σ
  | [], st => (none, st)
  | rs :: rest, st =>
    match body rs st with
    | (some err, st) => (some err, st)
    | (none, st) => rangeResources body rest st

/-- The loop body of `testAccCheckLinodeNodeBalancerDestroy`
(resource_linode_nodebalancer_test.go, lines 104-125). The type assertion
`err.(linodego.Error)` holds for an error whose dynamic type is the struct `linodego.Error`
and for no other, the pointer type `*linodego.Error` included; when it does not hold, the
test on `Code` is skipped and the loop goes on. -/
def nodeBalancerDestroyBody (lib : Lib) (client : Client) (rs : ResourceState)
    (net : Net NodeBalancer) : Option GoError × Net NodeBalancer :=
  if rs.type ≠ "linode_nodebalancer" then (none, net)
  else
    match atoi rs.Primary.ID with
    | (_, some _) => (some (.other ("Failed parsing " ++ rs.Primary.ID ++ " to int")), net)
    | (id, none) =>
      if id = 0 then
        (some (.other ("Would have considered " ++ rs.Primary.ID ++ " as " ++ fmtInt id)), net)
      else
        match GetNodeBalancer lib client net id with
        | ((_, none), net) =>
          (some (.other ("NodeBalancer with id " ++ fmtInt id ++ " still exists")), net)
        | ((_, some (.value Code _)), net) =>
          if Code ≠ 404 then
            (some (.other ("Failed to request NodeBalancer with id " ++ fmtInt id)), net)
          else (none, net)
        | ((_, some (.api _ _)), net) => (none, net)
        | ((_, some (.other _)), net) => (none, net)

/-- `testAccCheckLinodeNodeBalancerDestroy` (resource_linode_nodebalancer_test.go,
lines 98-129); `meta` is the outcome of the type assertion on `testAccProvider.Meta()`. -/
def testAccCheckLinodeNodeBalancerDestroy (lib : Lib) (meta : Option Client) (s : State)
    (net : Net NodeBalancer) : Option GoError × Net NodeBalancer :=
  match meta with
  | none => (some (.other "Failed to get Linode client"), net)
  | some client => rangeResources (nodeBalancerDestroyBody lib client) s.Resources net

/-- The type of `client.GetNodeBalancerConfig(ctx, nodebalancerID, id)`, which is defined in
another file: the record or the error, and the exchange after the call. -/
abbrev ConfigGetter (ρ σ : Type) := σ → Int → Int → (Option ρ × Option GoError) × σ

/-- The loop body of `testAccCheckLinodeNodeBalancerConfigDestroy`
(resource_linode_nodebalancer_config_test.go, lines 117-140): the error of the first `Atoi` is
overwritten by that of the second, and the type assertion `err.(linodego.Error)` is the one of
the NodeBalancer check. -/
def nodeBalancerConfigDestroyBody {ρ σ : Type} (GetNodeBalancerConfig : ConfigGetter ρ σ)
    (rs : ResourceState) (net : σ) : Option GoError × σ :=
  if rs.type ≠ "linode_nodebalancer_config" then (none, net)
  else
    let id := (atoi rs.Primary.ID).1
    match atoi (mapIndex rs.Primary.Attributes "nodebalancer_id") with
    | (_, some _) => (some (.other ("Failed parsing " ++ rs.Primary.ID ++ " to int")), net)
    | (nodebalancerID, none) =>
      if id = 0 then
        (some (.other ("Would have considered " ++ rs.Primary.ID ++ " as " ++ fmtInt id)), net)
      else
        match GetNodeBalancerConfig net nodebalancerID id with
        | ((_, none), net) =>
          (some (.other ("NodeBalancer Config with id " ++ fmtInt id ++ " still exists")), net)
        | ((_, some (.value Code _)), net) =>
          if Code ≠ 404 then
            (some (.other ("Failed to request NodeBalancer Config with id " ++ fmtInt id)), net)
          else (none, net)
        | ((_, some (.api _ _)), net) => (none, net)
        | ((_, some (.other _)), net) => (none, net)

/-- `testAccCheckLinodeNodeBalancerConfigDestroy` (resource_linode_nodebalancer_config_test.go,
lines 111-144); `meta` is the outcome of the type assertion on `testAccProvider.Meta()`, here
the client's `GetNodeBalancerConfig`. -/
def testAccCheckLinodeNodeBalancerConfigDestroy {ρ σ : Type} (meta : Option (ConfigGetter ρ σ))
    (s : State) (net : σ) : Option GoError × σ :=
  match meta with
  | none => (some (.other "Failed to get Linode client"), net)
  | some GetNodeBalancerConfig =>
    rangeResources (nodeBalancerConfigDestroyBody GetNodeBalancerConfig) s.Resources net

/-! ## Concrete instances -/

/-- The number two decimal digit characters denote, if both are digits. -/
def twoDigits (a b : Char) : Option Nat :=
  if a.isDigit ∧ b.isDigit then some (digitsValue [a, b]) else none

/-- Modelled from the spec: `parseDates` is defined in a file of the package that is not among
the sources; the spec fixes only that a well-formed timestamp gives a time and that an empty or
malformed one gives no time. This instance reads `YYYY-MM-DDTHH:MM:SS`, returns the nil pointer
with an error for anything else, and serves to instantiate statements that hold for every
parser. -/
def layoutParseDates (s : String) : Option Time × Option GoError :=
  match s.data with
  | [y1, y2, y3, y4, '-', m1, m2, '-', d1, d2, 'T', h1, h2, ':', n1, n2, ':', s1, s2] =>
    match twoDigits y1 y2, twoDigits y3 y4, twoDigits m1 m2, twoDigits d1 d2,
        twoDigits h1 h2, twoDigits n1 n2, twoDigits s1 s2 with
    | some yh, some yl, some mo, some d, some h, some mi, some se =>
      if 1 ≤ mo ∧ mo ≤ 12 ∧ 1 ≤ d ∧ d ≤ 31 ∧ h < 24 ∧ mi < 60 ∧ se < 60 then
        (some { year := yh * 100 + yl, month := mo, day := d, hour := h, minute := mi,
                second := se }, none)
      else (none, some (.other ("parsing time " ++ s ++ ": out of range")))
    | _, _, _, _, _, _, _ => (none, some (.other ("parsing time " ++ s)))
  | _ => (none, some (.other ("parsing time " ++ s)))

/-- A `Lib` instance: the layout parser above, and a `NewError` that wraps any error into a
`*linodego.Error` of code 2 with the same message. -/
def sampleLib : Lib where
  parseDates := layoutParseDates
  NewError := fun err =>
    match err with
    | .api _ msg => .api 2 msg
    | .value _ msg => .api 2 msg
    | .other msg => .api 2 msg

/-- A client whose endpoints resolve. -/
def sampleClient : Client where
  NodeBalancers :=
    { Endpoint := .ok "https://api.linode.com/v4/nodebalancers"
      endpointWithID := fun _ => .error (.other "nodebalancers is not a template") }
  InstanceConfigs :=
    { Endpoint := .error (.other "configs needs a linode id")
      endpointWithID := fun id =>
        .ok ("https://api.linode.com/v4/linode/instances/" ++ fmtInt id ++ "/configs") }

/-- A client whose endpoints do not resolve. -/
def brokenClient : Client where
  NodeBalancers :=
    { Endpoint := .error (.other "no endpoint for nodebalancers")
      endpointWithID := fun _ => .error (.other "no endpoint for nodebalancers") }
  InstanceConfigs :=
    { Endpoint := .error (.other "no endpoint for configs")
      endpointWithID := fun _ => .error (.other "no endpoint for configs") }

/-- An exchange with an empty log that answers every request with the record `r`. -/
def echoNet {ρ : Type} (r : ρ) : Net ρ where
  log := []
  reply := fun _ _ => .ok r

/-- An exchange with an empty log that fails every request with the error `err`. -/
def failingNet {ρ : Type} (err : GoError) : Net ρ where
  log := []
  reply := fun _ _ => .error err

/-- An exchange with an empty log that fails the first request with `err` and answers every
later one with the record `r`: a second attempt would succeed. -/
def flakyNet {ρ : Type} (err : GoError) (r : ρ) : Net ρ where
  log := []
  reply := fun log _ => if log.isEmpty then .error err else .ok r

/-- A NodeBalancer record as decoded from a response: the timestamp strings are filled in, the
structured timestamps (tagged `json:"-"`) are nil. -/
def sampleNodeBalancer : NodeBalancer :=
  { CreatedStr := "2018-01-02T03:04:05", UpdatedStr := "", ID := 123, Label := some "lb1",
    Region := "us-east", ClientConnThrottle := 20 }

/-- An InstanceConfig record as decoded from a response. -/
def sampleInstanceConfig : InstanceConfig :=
  { CreatedStr := "2018-01-02T03:04:05", UpdatedStr := "yesterday", ID := 3, Label := "boot",
    Kernel := "linode/latest-64bit" }

/-- What a call returned, if it did not panic. -/
def Outcome.returned {α : Type} : Outcome α → Option α
  | .ret a => some a
  | .panic _ => none

/-- A list helper for NodeBalancers that fetches the given pages in order, appending each with
`appendData`, and stops with the error of the first page that fails; the records of the pages
are already in the heap. -/
def pagesNodeBalancers :
    List (Except GoError NodeBalancersPagedResponse) → NodeBalancersListHelper
  | [], resp, heap => .ret ((resp, none), heap)
  | .error err :: _, resp, heap => .ret ((resp, some err), heap)
  | .ok page :: rest, resp, heap => pagesNodeBalancers rest (resp.appendData page) heap

/-- A list helper for InstanceConfigs that fetches the given pages in order, appending each with
`appendData`, and stops with the error of the first page that fails; the records of the pages
are already in the heap. -/
def pagesInstanceConfigs :
    List (Except GoError InstanceConfigsPagedResponse) → InstanceConfigsListHelper
  | [], resp, _, heap => .ret ((resp, none), heap)
  | .error err :: _, resp, _, heap => .ret ((resp, some err), heap)
  | .ok page :: rest, resp, linodeID, heap =>
    pagesInstanceConfigs rest (resp.appendData page) linodeID heap

/-- A heap in which every pointer leads to a copy of `sampleNodeBalancer` with the pointer as
its ID. -/
def sampleNodeBalancerHeap : Heap NodeBalancer :=
  fun p => { sampleNodeBalancer with ID := p }

/-- A heap in which every pointer leads to a copy of `sampleInstanceConfig` with the pointer as
its ID. -/
def sampleInstanceConfigHeap : Heap InstanceConfig :=
  fun p => { sampleInstanceConfig with ID := p }

/-- A state with one NodeBalancer of ID 7, one NodeBalancer config of ID 9 under it, and one
resource of another type. -/
def sampleState : State :=
  { Resources :=
      [ { type := "linode_instance", Primary := { ID := "not a number" } },
        { type := "linode_nodebalancer", Primary := { ID := "7" } },
        { type := "linode_nodebalancer_config",
          Primary := { ID := "9", Attributes := [("nodebalancer_id", "7")] } } ] }

/-- A `GetNodeBalancerConfig` that fails every call with the error `err` and leaves the
exchange, here a count of the calls, one higher. -/
def failingConfigGetter (err : GoError) : ConfigGetter Unit Nat :=
  fun calls _ _ => ((none, some err), calls + 1)

/-- Modelled from the spec: `listHelper` is defined in a file of the package that is not among
the sources. For a list call the spec has it resolve the collection endpoint first and only then
issue the GETs and append the pages. The endpoint is resolved through the `endpoint` method of
the paged response (nodebalancer.go, lines 80-86), a method of no other use; `fetch` stands for
all the helper does once it has the endpoint. -/
def listHelperNodeBalancers (c : Client) (fetch : String → NodeBalancersListHelper) :
    NodeBalancersListHelper :=
  fun response heap =>
    match NodeBalancersPagedResponse.endpoint c with
    | .panic err => .panic err
    | .ret endpoint => fetch endpoint response heap

/-- Modelled from the spec: `listHelperWithID` is defined in a file of the package that is not
among the sources. For a list call under a parent the spec has it resolve the collection
endpoint from the parent identifier first and only then issue the GETs and append the pages. The
endpoint is resolved through the `endpointWithID` method of the paged response
(instance_configs.go, lines 109-115), a method of no other use; `fetch` stands for all the
helper does once it has the endpoint. -/
def listHelperWithIDInstanceConfigs (c : Client)
    (fetch : String → InstanceConfigsListHelper) : InstanceConfigsListHelper :=
  fun response id heap =>
    match InstanceConfigsPagedResponse.endpointWithID c id with
    | .panic err => .panic err
    | .ret endpoint => fetch endpoint response id heap

/-- A client of which the NodeBalancers endpoint does not resolve while the InstanceConfigs
endpoint does. -/
def halfBrokenClient : Client where
  NodeBalancers := brokenClient.NodeBalancers
  InstanceConfigs := sampleClient.InstanceConfigs

/-! ## Theorems -/

/-! ### C1: the payload of `RenameInstanceConfig` -/

/-- C1, as stated, fails: renaming config 3 of instance 7 to `web` issues one PUT whose body has
the members `label`, `memory_limit` and `init_rd`, so the payload does carry `memory_limit` and
`init_rd` (both with the value 0). -/
theorem rename_payload_carries_memory_limit_and_init_rd :
    (RenameInstanceConfig sampleLib sampleClient marshalInstanceConfigOptions
        (echoNet sampleInstanceConfig) 7 3 "web").2.log.map
      (fun r => (r.method, r.url, r.body.map JSON.members))
      = [(Method.PUT, "https://api.linode.com/v4/linode/instances/7/configs/3",
          some [("label", JSON.str "web"), ("memory_limit", JSON.num 0),
                ("init_rd", JSON.num 0)])] := by
  rfl

/-- C1, amended: for every label, when the endpoint resolves to `e` the one request that
`RenameInstanceConfig` issues is a PUT to `e/<configID>` whose body is the object with
`label` (only when the label is not empty), then `memory_limit: 0` and `init_rd: 0`; it has none
of the keys `comments`, `devices`, `helpers`, `kernel`, `root_device`, `run_level`,
`virt_mode`. -/
theorem rename_payload_members (lib : Lib) (c : Client) (net : Net InstanceConfig)
    (linodeID configID : Int) (label e : String)
    (he : c.InstanceConfigs.endpointWithID linodeID = .ok e) :
    (RenameInstanceConfig lib c marshalInstanceConfigOptions net linodeID configID label).2.log
      = net.log ++ [{ method := .PUT, url := sprintfPath e configID,
                      body := some (InstanceConfigCreateOptions.toJSON { Label := label }) }]
    ∧ (InstanceConfigCreateOptions.toJSON { Label := label }).members
      = (if label = "" then [] else [("label", JSON.str label)])
          ++ [("memory_limit", JSON.num 0), ("init_rd", JSON.num 0)]
    ∧ ∀ k ∈ ["comments", "devices", "helpers", "kernel", "root_device", "run_level",
              "virt_mode"],
        k ∉ (InstanceConfigCreateOptions.toJSON { Label := label }).keys := by
  refine ⟨?_, ?_, ?_⟩
  · simp only [RenameInstanceConfig, UpdateInstanceConfig, he, marshalInstanceConfigOptions,
      Net.send]
    cases net.reply net.log _ <;> rfl
  · by_cases hl : label = "" <;>
      simp [InstanceConfigCreateOptions.toJSON, JSON.members, fieldStringOmitEmpty,
        fieldPtrOmitEmpty, field, hl]
  · by_cases hl : label = "" <;>
      simp [InstanceConfigCreateOptions.toJSON, JSON.keys, fieldStringOmitEmpty,
        fieldPtrOmitEmpty, field, hl]

/-- C1, amended, at a concrete call: instance 7, config 3, label `web`. -/
theorem rename_payload_members_witness :
    ((RenameInstanceConfig sampleLib sampleClient marshalInstanceConfigOptions
        (echoNet sampleInstanceConfig) 7 3 "web").2.log
      = (echoNet sampleInstanceConfig).log ++
          [{ method := .PUT,
             url := sprintfPath "https://api.linode.com/v4/linode/instances/7/configs" 3,
             body := some (InstanceConfigCreateOptions.toJSON { Label := "web" }) }])
    ∧ (InstanceConfigCreateOptions.toJSON { Label := "web" }).members
      = (if "web" = "" then [] else [("label", JSON.str "web")])
          ++ [("memory_limit", JSON.num 0), ("init_rd", JSON.num 0)]
    ∧ ∀ k ∈ ["comments", "devices", "helpers", "kernel", "root_device", "run_level",
              "virt_mode"],
        k ∉ (InstanceConfigCreateOptions.toJSON { Label := "web" }).keys :=
  rename_payload_members sampleLib sampleClient (echoNet sampleInstanceConfig) 7 3 "web"
    "https://api.linode.com/v4/linode/instances/7/configs" rfl

/-! ### C2: the payload of `UpdateNodeBalancer` -/

/-- C2: for every `NodeBalancerUpdateOptions` `o`, `json.Marshal` succeeds with the document
`o.toJSON`; that document has the key `label` exactly when `o.Label` is present and the key
`client_conn_throttle` exactly when `o.ClientConnThrottle` is present, a present value being
serialized as it is (the empty string and 0 included); it has no other key; and decoding it
gives back exactly `o`. -/
theorem update_options_payload_roundtrip (o : NodeBalancerUpdateOptions) :
    marshalNodeBalancerUpdateOptions o = .ok o.toJSON
    ∧ ("label" ∈ o.toJSON.keys ↔ o.Label.isSome = true)
    ∧ ("client_conn_throttle" ∈ o.toJSON.keys ↔ o.ClientConnThrottle.isSome = true)
    ∧ (∀ s, o.Label = some s ↔ ("label", JSON.str s) ∈ o.toJSON.members)
    ∧ (∀ n, o.ClientConnThrottle = some n ↔
        ("client_conn_throttle", JSON.num n) ∈ o.toJSON.members)
    ∧ (∀ k ∈ o.toJSON.keys, k = "label" ∨ k = "client_conn_throttle")
    ∧ NodeBalancerUpdateOptions.fromJSON o.toJSON = some o := by
  have h1 : matchesTag nodeBalancerUpdateTags "label" "label" = true := by decide
  have h2 : matchesTag nodeBalancerUpdateTags "label" "client_conn_throttle" = false := by
    decide
  have h3 : matchesTag nodeBalancerUpdateTags "client_conn_throttle" "client_conn_throttle"
      = true := by decide
  rcases o with ⟨_ | l, _ | t⟩ <;>
    simp [marshalNodeBalancerUpdateOptions, NodeBalancerUpdateOptions.toJSON,
      NodeBalancerUpdateOptions.fromJSON, NodeBalancerUpdateOptions.setMembers,
      NodeBalancerUpdateOptions.setMember, JSON.keys, JSON.members, fieldPtrOmitEmpty, h1, h2,
      h3, eq_comm]

/-! ### C3: timestamps of listed records -/

/-- Applying `fixDates` twice to an InstanceConfig is applying it once. -/
theorem instanceConfig_fixDates_twice (lib : Lib) (i : InstanceConfig) :
    (i.fixDates lib).fixDates lib = i.fixDates lib := rfl

/-- After the loop of `ListInstanceConfigs`, a pointer of the slice leads to the date-fixed
record and every other pointer to the record it led to before. -/
theorem fixDatesEach_apply (lib : Lib) (l : List Ptr) (heap : Heap InstanceConfig) (p : Ptr) :
    fixDatesEach lib l heap p = if p ∈ l then (heap p).fixDates lib else heap p := by
  induction l generalizing heap with
  | nil => simp [fixDatesEach]
  | cons el rest ih =>
    rw [fixDatesEach, ih]
    by_cases hp : p = el
    · subst hp
      simp [instanceConfig_fixDates_twice]
    · simp [hp, Function.update_noteq hp]

/-- The half of C3 that holds: every record that `ListInstanceConfigs` returns has its
structured timestamps equal to the parse results of its timestamp strings. -/
theorem listInstanceConfigs_dates_fixed (lib : Lib) (helper : InstanceConfigsListHelper)
    (heap heap1 : Heap InstanceConfig) (linodeID : Int) (l : List Ptr)
    (h : ListInstanceConfigs lib helper heap linodeID = .ret ((l, none), heap1)) :
    ∀ p ∈ l, (heap1 p).Created = (lib.parseDates (heap1 p).CreatedStr).1
      ∧ (heap1 p).Updated = (lib.parseDates (heap1 p).UpdatedStr).1 := by
  intro p hp
  unfold ListInstanceConfigs at h
  cases hh : helper {} linodeID heap with
  | panic err => simp [hh] at h
  | ret r =>
    obtain ⟨⟨resp, err⟩, heap0⟩ := r
    cases err with
    | some err => simp [hh] at h
    | none =>
      simp only [hh, Outcome.ret.injEq, Prod.mk.injEq, and_true] at h
      obtain ⟨hl, hheap⟩ := h
      subst hl
      subst hheap
      rw [fixDatesEach_apply]
      simp [hp, InstanceConfig.fixDates]

/-- C3 fails for `ListNodeBalancers`: with a helper that accumulates one page holding one
decoded record whose `created` string is `2018-01-02T03:04:05`, the call succeeds and returns
that record with `Created` still nil, although the string parses to a time; on the same input
`ListInstanceConfigs` returns the record with `Created` set to that time. -/
theorem listNodeBalancers_leaves_dates_unset :
    (ListNodeBalancers (pagesNodeBalancers [.ok { Data := [0] }])
        sampleNodeBalancerHeap).returned.map
      (fun r => (r.1.1, r.1.2, r.1.1.map (fun p => ((r.2 p).CreatedStr, (r.2 p).Created))))
      = some ([0], none, [("2018-01-02T03:04:05", none)])
    ∧ (sampleLib.parseDates "2018-01-02T03:04:05").1 = some ⟨2018, 1, 2, 3, 4, 5⟩
    ∧ (ListInstanceConfigs sampleLib (pagesInstanceConfigs [.ok { Data := [0] }])
        sampleInstanceConfigHeap 7).returned.map
      (fun r => (r.1.1, r.1.2, r.1.1.map (fun p => ((r.2 p).CreatedStr, (r.2 p).Created))))
      = some ([0], none, [("2018-01-02T03:04:05", some ⟨2018, 1, 2, 3, 4, 5⟩)]) := by
  refine ⟨by decide, by decide, by decide⟩

/-! ### C4: `appendData` over the pages of a list call -/

/-- Appending pages one after the other to a NodeBalancers response appends their records. -/
theorem nodeBalancers_foldl_appendData
    (pages : List NodeBalancersPagedResponse) (resp : NodeBalancersPagedResponse) :
    (pages.foldl NodeBalancersPagedResponse.appendData resp).Data
      = resp.Data ++ (pages.map (fun page => page.Data)).flatten := by
  induction pages generalizing resp with
  | nil => simp
  | cons page rest ih => simp [ih, NodeBalancersPagedResponse.appendData]

/-- Appending pages one after the other to an InstanceConfigs response appends their
records. -/
theorem instanceConfigs_foldl_appendData
    (pages : List InstanceConfigsPagedResponse) (resp : InstanceConfigsPagedResponse) :
    (pages.foldl InstanceConfigsPagedResponse.appendData resp).Data
      = resp.Data ++ (pages.map (fun page => page.Data)).flatten := by
  induction pages generalizing resp with
  | nil => simp
  | cons page rest ih => simp [ih, InstanceConfigsPagedResponse.appendData]

/-- C4: starting from an empty paged response and calling `appendData` once per page, in
order, leaves `Data` equal to the concatenation of the pages' `Data` in that order, so it holds
exactly as many records as the pages hold in total; this for any number of pages, and for both
`NodeBalancersPagedResponse` and `InstanceConfigsPagedResponse`. -/
theorem appendData_pages_concat (nbPages : List NodeBalancersPagedResponse)
    (icPages : List InstanceConfigsPagedResponse) :
    (nbPages.foldl NodeBalancersPagedResponse.appendData {}).Data
      = (nbPages.map (fun page => page.Data)).flatten
    ∧ (nbPages.foldl NodeBalancersPagedResponse.appendData {}).Data.length
      = (nbPages.map (fun page => page.Data.length)).sum
    ∧ (icPages.foldl InstanceConfigsPagedResponse.appendData {}).Data
      = (icPages.map (fun page => page.Data)).flatten
    ∧ (icPages.foldl InstanceConfigsPagedResponse.appendData {}).Data.length
      = (icPages.map (fun page => page.Data.length)).sum := by
  rw [nodeBalancers_foldl_appendData,
    instanceConfigs_foldl_appendData]
  simp [List.length_flatten, Function.comp_def]

/-! ### C5: `fixDates` never fails a call -/

/-- C5: `fixDates` is a total function from records to records (it has no error result). For
every record, a timestamp string that the parser turns into a time `t` leaves the structured
timestamp set to `t`, and a timestamp string on which the parser fails (nil time, an error)
leaves the structured timestamp nil. Consequently, whenever the endpoint resolves, the options
serialize and the request is answered with a record, `GetNodeBalancer`, `CreateNodeBalancer`,
`UpdateNodeBalancer`, `GetInstanceConfig`, `CreateInstanceConfig` and `UpdateInstanceConfig`
return that record, date-fixed, with a nil error, whatever its timestamp strings are. -/
theorem fixDates_never_fails (lib : Lib) (c : Client) (n : NodeBalancer) (i : InstanceConfig) :
    (∀ t, lib.parseDates n.CreatedStr = (some t, none) → (n.fixDates lib).Created = some t)
    ∧ (∀ t, lib.parseDates n.UpdatedStr = (some t, none) → (n.fixDates lib).Updated = some t)
    ∧ (∀ err, lib.parseDates n.CreatedStr = (none, some err) → (n.fixDates lib).Created = none)
    ∧ (∀ err, lib.parseDates n.UpdatedStr = (none, some err) → (n.fixDates lib).Updated = none)
    ∧ (∀ t, lib.parseDates i.CreatedStr = (some t, none) → (i.fixDates lib).Created = some t)
    ∧ (∀ t, lib.parseDates i.UpdatedStr = (some t, none) → (i.fixDates lib).Updated = some t)
    ∧ (∀ err, lib.parseDates i.CreatedStr = (none, some err) → (i.fixDates lib).Created = none)
    ∧ (∀ err, lib.parseDates i.UpdatedStr = (none, some err) → (i.fixDates lib).Updated = none)
    ∧ (∀ (net : Net NodeBalancer) (id : Int) (e : String),
        c.NodeBalancers.Endpoint = .ok e →
        net.reply net.log { method := .GET, url := sprintfPath e id } = .ok n →
        (GetNodeBalancer lib c net id).1 = (some (n.fixDates lib), none))
    ∧ (∀ (marshal : Option NodeBalancerCreateOptions → Except GoError JSON)
        (net : Net NodeBalancer) (opts : Option NodeBalancerCreateOptions) (e : String)
        (body : JSON),
        c.NodeBalancers.Endpoint = .ok e → marshal opts = .ok body →
        net.reply net.log
            { method := .POST, url := e, headers := [("Content-Type", "application/json")],
              body := some body } = .ok n →
        (CreateNodeBalancer lib c marshal net opts).1 = (some (n.fixDates lib), none))
    ∧ (∀ (marshal : NodeBalancerUpdateOptions → Except GoError JSON)
        (net : Net NodeBalancer) (id : Int) (opts : NodeBalancerUpdateOptions) (e : String)
        (body : JSON),
        c.NodeBalancers.Endpoint = .ok e → marshal opts = .ok body →
        net.reply net.log { method := .PUT, url := sprintfPath e id, body := some body }
          = .ok n →
        (UpdateNodeBalancer lib c marshal net id opts).1 = (some (n.fixDates lib), none))
    ∧ (∀ (net : Net InstanceConfig) (linodeID configID : Int) (e : String),
        c.InstanceConfigs.endpointWithID linodeID = .ok e →
        net.reply net.log { method := .GET, url := sprintfPath e configID } = .ok i →
        (GetInstanceConfig lib c net linodeID configID).1 = (some (i.fixDates lib), none))
    ∧ (∀ (marshal : InstanceConfigCreateOptions → Except GoError JSON)
        (net : Net InstanceConfig) (linodeID : Int) (opts : InstanceConfigCreateOptions)
        (e : String) (body : JSON),
        c.InstanceConfigs.endpointWithID linodeID = .ok e → marshal opts = .ok body →
        net.reply net.log { method := .POST, url := e, body := some body } = .ok i →
        (CreateInstanceConfig lib c marshal net linodeID opts).1
          = (some (i.fixDates lib), none))
    ∧ (∀ (marshal : InstanceConfigUpdateOptions → Except GoError JSON)
        (net : Net InstanceConfig) (linodeID configID : Int)
        (opts : InstanceConfigUpdateOptions) (e : String) (body : JSON),
        c.InstanceConfigs.endpointWithID linodeID = .ok e → marshal opts = .ok body →
        net.reply net.log { method := .PUT, url := sprintfPath e configID, body := some body }
          = .ok i →
        (UpdateInstanceConfig lib c marshal net linodeID configID opts).1
          = (some (i.fixDates lib), none)) := by
  refine ⟨?_, ?_, ?_, ?_, ?_, ?_, ?_, ?_, ?_, ?_, ?_, ?_, ?_, ?_⟩
  · intro t h; simp [NodeBalancer.fixDates, h]
  · intro t h; simp [NodeBalancer.fixDates, h]
  · intro err h; simp [NodeBalancer.fixDates, h]
  · intro err h; simp [NodeBalancer.fixDates, h]
  · intro t h; simp [InstanceConfig.fixDates, h]
  · intro t h; simp [InstanceConfig.fixDates, h]
  · intro err h; simp [InstanceConfig.fixDates, h]
  · intro err h; simp [InstanceConfig.fixDates, h]
  · intro net id e he hr
    simp [GetNodeBalancer, Net.send, he, hr]
  · intro marshal net opts e body he hm hr
    simp [CreateNodeBalancer, Net.send, he, hm, hr]
  · intro marshal net id opts e body he hm hr
    simp [UpdateNodeBalancer, Net.send, he, hm, hr]
  · intro net linodeID configID e he hr
    simp [GetInstanceConfig, Net.send, he, hr]
  · intro marshal net linodeID opts e body he hm hr
    simp [CreateInstanceConfig, Net.send, he, hm, hr]
  · intro marshal net linodeID configID opts e body he hm hr
    simp [UpdateInstanceConfig, Net.send, he, hm, hr]

/-- C5 at concrete records: `sampleNodeBalancer` has a well-formed `created` and an empty
`updated`, `sampleInstanceConfig` a well-formed `created` and the malformed `updated`
`yesterday`; the Get and the Update that are answered with them return them without error. -/
theorem fixDates_never_fails_witness :
    (sampleNodeBalancer.fixDates sampleLib).Created = some ⟨2018, 1, 2, 3, 4, 5⟩
    ∧ (sampleNodeBalancer.fixDates sampleLib).Updated = none
    ∧ (sampleInstanceConfig.fixDates sampleLib).Updated = none
    ∧ (GetNodeBalancer sampleLib sampleClient (echoNet sampleNodeBalancer) 123).1
      = (some (sampleNodeBalancer.fixDates sampleLib), none)
    ∧ (UpdateInstanceConfig sampleLib sampleClient marshalInstanceConfigOptions
        (echoNet sampleInstanceConfig) 7 3 { Label := "web" }).1
      = (some (sampleInstanceConfig.fixDates sampleLib), none) :=
  have h := fixDates_never_fails sampleLib sampleClient sampleNodeBalancer sampleInstanceConfig
  ⟨h.1 _ (by decide),
   h.2.2.2.1 (.other "parsing time ") (by decide),
   h.2.2.2.2.2.2.2.1 (.other "parsing time yesterday") (by decide),
   h.2.2.2.2.2.2.2.2.1 (echoNet sampleNodeBalancer) 123 _ rfl rfl,
   h.2.2.2.2.2.2.2.2.2.2.2.2.2 marshalInstanceConfigOptions (echoNet sampleInstanceConfig) 7 3
     { Label := "web" } _ _ rfl rfl rfl⟩

/-! ### C6: the destroy checks -/

/-- A `range` loop returns nil exactly when the body falls through for every resource, each
body being run in the state left by the resources before it. -/
theorem rangeResources_none_iff {σ : Type} (body : ResourceState → σ → Option GoError × σ)
    (rs : List ResourceState) (st : σ) :
    (rangeResources body rs st).1 = none ↔
      ∀ (k : Nat) (r : ResourceState), rs[k]? = some r →
        (body r (rangeResources body (rs.take k) st).2).1 = none := by
  induction rs generalizing st with
  | nil => simp [rangeResources]
  | cons r rest ih =>
    rcases hb : body r st with ⟨_ | err, st1⟩
    · rw [rangeResources, hb]
      simp only
      rw [ih]
      constructor
      · intro h k r1 hk
        cases k with
        | zero =>
          simp at hk
          subst hk
          simp [rangeResources, hb]
        | succ k =>
          simp at hk
          simpa [rangeResources, hb] using h k r1 hk
      · intro h k r1 hk
        have := h (k + 1) r1 (by simpa using hk)
        simpa [rangeResources, hb] using this
    · rw [rangeResources, hb]
      simp only
      constructor
      · intro h; cases h
      · intro h
        have := h 0 r (by simp)
        simp [rangeResources, hb] at this

/-- The body of the NodeBalancer check falls through exactly for a resource of another type,
or one whose ID `Atoi` accepts as a non-zero number and whose Get fails with an error that is
not a `linodego.Error` struct of a code other than 404 (a `*linodego.Error` of any code falls
through). -/
theorem nodeBalancerDestroyBody_none_iff (lib : Lib) (client : Client) (rs : ResourceState)
    (net : Net NodeBalancer) :
    (nodeBalancerDestroyBody lib client rs net).1 = none ↔
      (rs.type = "linode_nodebalancer" →
        (atoi rs.Primary.ID).2 = none ∧ (atoi rs.Primary.ID).1 ≠ 0
        ∧ ∃ err, (GetNodeBalancer lib client net (atoi rs.Primary.ID).1).1.2 = some err
            ∧ ∀ code msg, err = GoError.value code msg → code = 404) := by
  unfold nodeBalancerDestroyBody
  by_cases ht : rs.type = "linode_nodebalancer"
  · simp only [ht, ne_eq, not_true_eq_false, if_false, true_implies]
    rcases ha : atoi rs.Primary.ID with ⟨id, _ | aerr⟩
    · simp only
      by_cases h0 : id = 0
      · simp [h0]
      · simp only [h0, if_false, not_false_eq_true, true_and]
        rcases hg : GetNodeBalancer lib client net id with
          ⟨⟨r, _ | (⟨code, msg⟩ | ⟨code, msg⟩ | msg)⟩, net1⟩
        · simp
        · simp
        · by_cases hc : code = 404 <;> simp [hc]
        · simp
    · simp
  · simp [ht]

/-- The body of the config check falls through exactly for a resource of another type, or one
whose `nodebalancer_id` attribute `Atoi` accepts, whose ID gives a non-zero number and whose Get
fails with an error that is not a `linodego.Error` struct of a code other than 404. -/
theorem nodeBalancerConfigDestroyBody_none_iff {ρ σ : Type} (getConfig : ConfigGetter ρ σ)
    (rs : ResourceState) (st : σ) :
    (nodeBalancerConfigDestroyBody getConfig rs st).1 = none ↔
      (rs.type = "linode_nodebalancer_config" →
        (atoi (mapIndex rs.Primary.Attributes "nodebalancer_id")).2 = none
        ∧ (atoi rs.Primary.ID).1 ≠ 0
        ∧ ∃ err, (getConfig st (atoi (mapIndex rs.Primary.Attributes "nodebalancer_id")).1
              (atoi rs.Primary.ID).1).1.2 = some err
            ∧ ∀ code msg, err = GoError.value code msg → code = 404) := by
  unfold nodeBalancerConfigDestroyBody
  by_cases ht : rs.type = "linode_nodebalancer_config"
  · simp only [ht, ne_eq, not_true_eq_false, if_false, true_implies]
    rcases ha : atoi (mapIndex rs.Primary.Attributes "nodebalancer_id") with ⟨nb, _ | aerr⟩
    · simp only
      by_cases h0 : (atoi rs.Primary.ID).1 = 0
      · simp [h0]
      · simp only [h0, if_false, not_false_eq_true, true_and]
        rcases hg : getConfig st nb (atoi rs.Primary.ID).1 with
          ⟨⟨r, _ | (⟨code, msg⟩ | ⟨code, msg⟩ | msg)⟩, st1⟩
        · simp
        · simp
        · by_cases hc : code = 404 <;> simp [hc]
        · simp
    · simp
  · simp [ht]

/-- C6 holds of the claim and not of the code: for a state whose only NodeBalancer has ID 7,
when the server answers the Get for 7 with a 500, which the client reports as a
`*linodego.Error` of code 500, `testAccCheckLinodeNodeBalancerDestroy` returns nil, that is
success, where the claim has a failure; the config check does the same, and both also pass a
connection error. The checks do test the code: the same 500 held in a `linodego.Error` struct
is turned into a failure. The assertion is on the struct type and the client hands out
pointers, so the test is never reached. A 404 passes, as the claim says. -/
theorem destroy_check_passes_on_server_500 :
    (GetNodeBalancer sampleLib sampleClient (failingNet (.api 500 "internal error")) 7).1
      = (none, some (.api 500 "internal error"))
    ∧ (testAccCheckLinodeNodeBalancerDestroy sampleLib (some sampleClient) sampleState
        (failingNet (.api 500 "internal error"))).1 = none
    ∧ (testAccCheckLinodeNodeBalancerConfigDestroy
        (some (failingConfigGetter (.api 500 "internal error"))) sampleState 0).1 = none
    ∧ (testAccCheckLinodeNodeBalancerDestroy sampleLib (some sampleClient) sampleState
        (failingNet (.other "dial tcp: connection refused"))).1 = none
    ∧ (testAccCheckLinodeNodeBalancerConfigDestroy
        (some (failingConfigGetter (.other "dial tcp: connection refused"))) sampleState 0).1
      = none
    ∧ (testAccCheckLinodeNodeBalancerDestroy sampleLib (some sampleClient) sampleState
        (failingNet (.value 500 "internal error"))).1
      = some (.other "Failed to request NodeBalancer with id 7")
    ∧ (testAccCheckLinodeNodeBalancerConfigDestroy
        (some (failingConfigGetter (.value 500 "internal error"))) sampleState 0).1
      = some (.other "Failed to request NodeBalancer Config with id 9")
    ∧ (testAccCheckLinodeNodeBalancerDestroy sampleLib (some sampleClient) sampleState
        (failingNet (.api 404 "Not found"))).1 = none := by
  refine ⟨by decide, by decide, by decide, by decide, by decide, by decide, by decide,
    by decide⟩

/-- Whatever its code, a `*linodego.Error` from the Get makes the body of the NodeBalancer
check fall through: the check cannot tell a 404 from a 500 of the client. -/
theorem nodeBalancerDestroyBody_passes_client_error (lib : Lib) (client : Client)
    (rs : ResourceState) (net : Net NodeBalancer) (code : Int) (msg : String)
    (hid : (atoi rs.Primary.ID).2 = none) (h0 : (atoi rs.Primary.ID).1 ≠ 0)
    (hget : (GetNodeBalancer lib client net (atoi rs.Primary.ID).1).1.2
      = some (.api code msg)) :
    (nodeBalancerDestroyBody lib client rs net).1 = none := by
  rw [nodeBalancerDestroyBody_none_iff]
  intro _
  exact ⟨hid, h0, _, hget, by intro c m h; cases h⟩

/-- The config check, unlike the NodeBalancer check, looks at no error of the `Atoi` of the
ID: for an ID beyond the `int` range it goes on to the Get with the bound `Atoi` returns. -/
theorem config_check_ignores_id_range_error :
    atoi "99999999999999999999"
      = (2 ^ 63 - 1,
          some (.other ("strconv.Atoi: parsing " ++ goQuote "99999999999999999999"
            ++ ": value out of range")))
    ∧ (nodeBalancerConfigDestroyBody (failingConfigGetter (.api 404 "Not found"))
        { type := "linode_nodebalancer_config",
          Primary := { ID := "99999999999999999999",
                       Attributes := [("nodebalancer_id", "7")] } } 0)
      = (none, 1)
    ∧ (nodeBalancerDestroyBody sampleLib sampleClient
        { type := "linode_nodebalancer", Primary := { ID := "99999999999999999999" } }
        (failingNet (.api 404 "Not found"))).1
      = some (.other "Failed parsing 99999999999999999999 to int") := by
  refine ⟨by decide, by decide, by decide⟩

/-- What the destroy checks do, in full. With the client at hand,
`testAccCheckLinodeNodeBalancerDestroy` returns nil exactly when every resource of type
`linode_nodebalancer` has an ID that `Atoi` accepts, that is not 0, and the Get for it (issued
after the checks of the resources before it) fails with an error that is not a
`linodego.Error` struct of a code other than 404. For the states in which no config ID is
beyond the `int` range, `testAccCheckLinodeNodeBalancerConfigDestroy` does the same for the
type `linode_nodebalancer_config`, where the `nodebalancer_id` attribute has to be accepted by
`Atoi` as well. Resources of other types never matter, and without the client both checks
fail. -/
theorem destroy_checks_success_iff (lib : Lib) (client : Client) (s : State)
    (net : Net NodeBalancer) {ρ σ : Type} (getConfig : ConfigGetter ρ σ) (st : σ) :
    ((testAccCheckLinodeNodeBalancerDestroy lib (some client) s net).1 = none ↔
      ∀ (k : Nat) (rs : ResourceState), s.Resources[k]? = some rs →
        rs.type = "linode_nodebalancer" →
        (atoi rs.Primary.ID).2 = none ∧ (atoi rs.Primary.ID).1 ≠ 0
        ∧ ∃ err,
            (GetNodeBalancer lib client
              (testAccCheckLinodeNodeBalancerDestroy lib (some client)
                { Resources := s.Resources.take k } net).2
              (atoi rs.Primary.ID).1).1.2 = some err
            ∧ ∀ code msg, err = GoError.value code msg → code = 404)
    ∧ ((∀ rs ∈ s.Resources, rs.type = "linode_nodebalancer_config" →
          (atoi rs.Primary.ID).2 = none ∨ (atoi rs.Primary.ID).1 = 0) →
      ((testAccCheckLinodeNodeBalancerConfigDestroy (some getConfig) s st).1 = none ↔
        ∀ (k : Nat) (rs : ResourceState), s.Resources[k]? = some rs →
          rs.type = "linode_nodebalancer_config" →
          (atoi (mapIndex rs.Primary.Attributes "nodebalancer_id")).2 = none
          ∧ (atoi rs.Primary.ID).2 = none ∧ (atoi rs.Primary.ID).1 ≠ 0
          ∧ ∃ err,
              (getConfig
                (testAccCheckLinodeNodeBalancerConfigDestroy (some getConfig)
                  { Resources := s.Resources.take k } st).2
                (atoi (mapIndex rs.Primary.Attributes "nodebalancer_id")).1
                (atoi rs.Primary.ID).1).1.2 = some err
              ∧ ∀ code msg, err = GoError.value code msg → code = 404))
    ∧ (testAccCheckLinodeNodeBalancerDestroy lib none s net).1
      = some (.other "Failed to get Linode client")
    ∧ (testAccCheckLinodeNodeBalancerConfigDestroy (none : Option (ConfigGetter ρ σ)) s st).1
      = some (.other "Failed to get Linode client") := by
  refine ⟨?_, ?_, rfl, rfl⟩
  · simp only [testAccCheckLinodeNodeBalancerDestroy]
    rw [rangeResources_none_iff]
    constructor
    · intro h k rs hk
      exact (nodeBalancerDestroyBody_none_iff lib client rs _).mp (h k rs hk)
    · intro h k rs hk
      exact (nodeBalancerDestroyBody_none_iff lib client rs _).mpr (h k rs hk)
  · intro hid
    simp only [testAccCheckLinodeNodeBalancerConfigDestroy]
    rw [rangeResources_none_iff]
    constructor
    · intro h k rs hk ht
      obtain ⟨h1, h2, h3⟩ := (nodeBalancerConfigDestroyBody_none_iff getConfig rs _).mp
        (h k rs hk) ht
      have hmem : rs ∈ s.Resources := List.getElem?_mem hk
      rcases hid rs hmem ht with hok | hzero
      · exact ⟨h1, hok, h2, h3⟩
      · exact absurd hzero h2
    · intro h k rs hk
      refine (nodeBalancerConfigDestroyBody_none_iff getConfig rs _).mpr ?_
      intro ht
      obtain ⟨h1, _, h2, h3⟩ := h k rs hk ht
      exact ⟨h1, h2, h3⟩

/-- The characterisation at a concrete state: the NodeBalancer 7 of `sampleState` is the
resource at position 1; when the check passes against a server that answers 404, its ID is
accepted as the non-zero number 7 and the Get for it failed with the 404. -/
theorem destroy_checks_success_iff_witness :
    (atoi "7").2 = none ∧ (atoi "7").1 ≠ 0
    ∧ ∃ err,
        (GetNodeBalancer sampleLib sampleClient
          (testAccCheckLinodeNodeBalancerDestroy sampleLib (some sampleClient)
            { Resources := sampleState.Resources.take 1 }
            (failingNet (.api 404 "Not found"))).2
          (atoi "7").1).1.2 = some err
        ∧ ∀ code msg, err = GoError.value code msg → code = 404 :=
  (destroy_checks_success_iff sampleLib sampleClient sampleState
      (failingNet (.api 404 "Not found")) (failingConfigGetter (.api 404 "Not found"))
      0).1.mp (by decide) 1
    { type := "linode_nodebalancer", Primary := { ID := "7" } } rfl rfl

/-! ### C7: endpoint resolution failures -/

/-- C7, as stated, fails: with a client whose endpoints do not resolve, `GetNodeBalancer`,
`DeleteNodeBalancer`, `GetInstanceConfig` and `RenameInstanceConfig` return the resolution
error to the caller as an ordinary error value (with a nil record), and issue no request. -/
theorem get_returns_endpoint_error_to_caller :
    (GetNodeBalancer sampleLib brokenClient (echoNet sampleNodeBalancer) 123).1
      = (none, some (.other "no endpoint for nodebalancers"))
    ∧ (GetNodeBalancer sampleLib brokenClient (echoNet sampleNodeBalancer) 123).2.log.length = 0
    ∧ (DeleteNodeBalancer brokenClient (echoNet sampleNodeBalancer) 123).1
      = some (.other "no endpoint for nodebalancers")
    ∧ (GetInstanceConfig sampleLib brokenClient (echoNet sampleInstanceConfig) 7 3).1
      = (none, some (.other "no endpoint for configs"))
    ∧ (RenameInstanceConfig sampleLib brokenClient marshalInstanceConfigOptions
        (echoNet sampleInstanceConfig) 7 3 "web").1
      = (none, some (.other "no endpoint for configs")) := by
  refine ⟨by decide, by decide, by decide, by decide, by decide⟩

/-- C7, amended: for each of Get, Create, Update and Delete, of either family, when the
resolution of its endpoint fails with `err` the operation returns at once with a nil record and
`err` itself as its error value, the exchange untouched (no request issued), whatever the
endpoint of the other family does. The endpoint methods of the paged responses panic with
`err`, and so does a list call, whose helper resolves the endpoint through them before it
issues any request. -/
theorem endpoint_error_is_returned (lib : Lib) (c : Client) :
    (∀ (net : Net NodeBalancer) (id : Int) (err : GoError),
        c.NodeBalancers.Endpoint = .error err →
        GetNodeBalancer lib c net id = ((none, some err), net))
    ∧ (∀ (marshal : Option NodeBalancerCreateOptions → Except GoError JSON)
        (net : Net NodeBalancer) (opts : Option NodeBalancerCreateOptions) (err : GoError),
        c.NodeBalancers.Endpoint = .error err →
        CreateNodeBalancer lib c marshal net opts = ((none, some err), net))
    ∧ (∀ (marshal : NodeBalancerUpdateOptions → Except GoError JSON) (net : Net NodeBalancer)
        (id : Int) (opts : NodeBalancerUpdateOptions) (err : GoError),
        c.NodeBalancers.Endpoint = .error err →
        UpdateNodeBalancer lib c marshal net id opts = ((none, some err), net))
    ∧ (∀ (ρ : Type) (net : Net ρ) (id : Int) (err : GoError),
        c.NodeBalancers.Endpoint = .error err →
        DeleteNodeBalancer c net id = (some err, net))
    ∧ (∀ (net : Net InstanceConfig) (linodeID configID : Int) (err : GoError),
        c.InstanceConfigs.endpointWithID linodeID = .error err →
        GetInstanceConfig lib c net linodeID configID = ((none, some err), net))
    ∧ (∀ (marshal : InstanceConfigCreateOptions → Except GoError JSON)
        (net : Net InstanceConfig) (linodeID : Int) (opts : InstanceConfigCreateOptions)
        (err : GoError),
        c.InstanceConfigs.endpointWithID linodeID = .error err →
        CreateInstanceConfig lib c marshal net linodeID opts = ((none, some err), net))
    ∧ (∀ (marshal : InstanceConfigUpdateOptions → Except GoError JSON)
        (net : Net InstanceConfig) (linodeID configID : Int)
        (opts : InstanceConfigUpdateOptions) (err : GoError),
        c.InstanceConfigs.endpointWithID linodeID = .error err →
        UpdateInstanceConfig lib c marshal net linodeID configID opts
          = ((none, some err), net))
    ∧ (∀ (ρ : Type) (net : Net ρ) (linodeID configID : Int) (err : GoError),
        c.InstanceConfigs.endpointWithID linodeID = .error err →
        DeleteInstanceConfig c net linodeID configID = (some err, net))
    ∧ (∀ err : GoError, c.NodeBalancers.Endpoint = .error err →
        NodeBalancersPagedResponse.endpoint c = .panic err)
    ∧ (∀ (linodeID : Int) (err : GoError),
        c.InstanceConfigs.endpointWithID linodeID = .error err →
        InstanceConfigsPagedResponse.endpointWithID c linodeID = .panic err)
    ∧ (∀ (fetch : String → NodeBalancersListHelper) (heap : Heap NodeBalancer)
        (err : GoError),
        c.NodeBalancers.Endpoint = .error err →
        ListNodeBalancers (listHelperNodeBalancers c fetch) heap = .panic err)
    ∧ (∀ (fetch : String → InstanceConfigsListHelper) (heap : Heap InstanceConfig)
        (linodeID : Int) (err : GoError),
        c.InstanceConfigs.endpointWithID linodeID = .error err →
        ListInstanceConfigs lib (listHelperWithIDInstanceConfigs c fetch) heap linodeID
          = .panic err) := by
  refine ⟨?_, ?_, ?_, ?_, ?_, ?_, ?_, ?_, ?_, ?_, ?_, ?_⟩
  · intro net id err h; simp [GetNodeBalancer, h]
  · intro marshal net opts err h; simp [CreateNodeBalancer, h]
  · intro marshal net id opts err h; simp [UpdateNodeBalancer, h]
  · intro ρ net id err h; simp [DeleteNodeBalancer, h]
  · intro net linodeID configID err h; simp [GetInstanceConfig, h]
  · intro marshal net linodeID opts err h; simp [CreateInstanceConfig, h]
  · intro marshal net linodeID configID opts err h; simp [UpdateInstanceConfig, h]
  · intro ρ net linodeID configID err h; simp [DeleteInstanceConfig, h]
  · intro err h; simp [NodeBalancersPagedResponse.endpoint, h]
  · intro linodeID err h; simp [InstanceConfigsPagedResponse.endpointWithID, h]
  · intro fetch heap err h
    simp [ListNodeBalancers, listHelperNodeBalancers, NodeBalancersPagedResponse.endpoint, h]
  · intro fetch heap linodeID err h
    simp [ListInstanceConfigs, listHelperWithIDInstanceConfigs,
      InstanceConfigsPagedResponse.endpointWithID, h]

/-- C7, amended, at a client of which only the NodeBalancers endpoint fails to resolve, and at
one of which none resolves: the Get and the Delete hand the error back with the exchange
untouched, the paged-response endpoint panics with it, and so does the list call. -/
theorem endpoint_error_is_returned_witness :
    GetNodeBalancer sampleLib halfBrokenClient (echoNet sampleNodeBalancer) 123
      = ((none, some (.other "no endpoint for nodebalancers")), echoNet sampleNodeBalancer)
    ∧ DeleteInstanceConfig brokenClient (echoNet sampleInstanceConfig) 7 3
      = (some (.other "no endpoint for configs"), echoNet sampleInstanceConfig)
    ∧ NodeBalancersPagedResponse.endpoint halfBrokenClient
      = .panic (.other "no endpoint for nodebalancers")
    ∧ ListNodeBalancers
        (listHelperNodeBalancers halfBrokenClient
          (fun _ => pagesNodeBalancers [.ok { Data := [0, 1] }]))
        sampleNodeBalancerHeap
      = .panic (.other "no endpoint for nodebalancers") :=
  ⟨(endpoint_error_is_returned sampleLib halfBrokenClient).1 _ 123 _ rfl,
   (endpoint_error_is_returned sampleLib brokenClient).2.2.2.2.2.2.2.1 _ _ 7 3 _ rfl,
   (endpoint_error_is_returned sampleLib halfBrokenClient).2.2.2.2.2.2.2.2.1 _ rfl,
   (endpoint_error_is_returned sampleLib halfBrokenClient).2.2.2.2.2.2.2.2.2.2.1
     (fun _ => pagesNodeBalancers [.ok { Data := [0, 1] }]) sampleNodeBalancerHeap _ rfl⟩

/-! ### C8: a list call returns a list or an error -/

/-- C8: when the pagination helper reports the error `err`, `ListNodeBalancers` and
`ListInstanceConfigs` return the nil slice together with `err`, whatever the helper had
accumulated; when it reports no error they return exactly the accumulated `Data`, in order,
with a nil error. So no returned result carries both an error and records. (The records of
`ListInstanceConfigs` are date-fixed in place, through their pointers, in both cases.) -/
theorem list_returns_data_or_error (lib : Lib) (nbHelper : NodeBalancersListHelper)
    (icHelper : InstanceConfigsListHelper) (nbHeap : Heap NodeBalancer)
    (icHeap : Heap InstanceConfig) (linodeID : Int) :
    (∀ resp err heap1, nbHelper {} nbHeap = .ret ((resp, some err), heap1) →
        ListNodeBalancers nbHelper nbHeap = .ret (([], some err), heap1))
    ∧ (∀ resp heap1, nbHelper {} nbHeap = .ret ((resp, none), heap1) →
        ListNodeBalancers nbHelper nbHeap = .ret ((resp.Data, none), heap1))
    ∧ (∀ l err heap1, ListNodeBalancers nbHelper nbHeap = .ret ((l, some err), heap1) → l = [])
    ∧ (∀ resp err heap1, icHelper {} linodeID icHeap = .ret ((resp, some err), heap1) →
        ListInstanceConfigs lib icHelper icHeap linodeID
          = .ret (([], some err), fixDatesEach lib resp.Data heap1))
    ∧ (∀ resp heap1, icHelper {} linodeID icHeap = .ret ((resp, none), heap1) →
        ListInstanceConfigs lib icHelper icHeap linodeID
          = .ret ((resp.Data, none), fixDatesEach lib resp.Data heap1))
    ∧ (∀ l err heap1,
        ListInstanceConfigs lib icHelper icHeap linodeID = .ret ((l, some err), heap1) →
        l = []) := by
  refine ⟨?_, ?_, ?_, ?_, ?_, ?_⟩
  · intro resp err heap1 h
    simp [ListNodeBalancers, h]
  · intro resp heap1 h
    simp [ListNodeBalancers, h]
  · intro l err heap1 h
    unfold ListNodeBalancers at h
    rcases hh : nbHelper {} nbHeap with ⟨⟨resp, _ | e⟩, heap0⟩ | e
    · simp [hh] at h
    · simp only [hh, Outcome.ret.injEq, Prod.mk.injEq] at h
      exact h.1.1.symm
    · simp [hh] at h
  · intro resp err heap1 h
    simp [ListInstanceConfigs, h]
  · intro resp heap1 h
    simp [ListInstanceConfigs, h]
  · intro l err heap1 h
    unfold ListInstanceConfigs at h
    rcases hh : icHelper {} linodeID icHeap with ⟨⟨resp, _ | e⟩, heap0⟩ | e
    · simp [hh] at h
    · simp only [hh, Outcome.ret.injEq, Prod.mk.injEq] at h
      exact h.1.1.symm
    · simp [hh] at h

/-- C8 at concrete helpers: a second page that fails after a first page of two records gives
the nil slice and that error; two pages that succeed give their three records in order. -/
theorem list_returns_data_or_error_witness :
    ListNodeBalancers
        (pagesNodeBalancers [.ok { Data := [0, 1] }, .error (.api 500 "internal error")])
        sampleNodeBalancerHeap
      = .ret (([], some (.api 500 "internal error")), sampleNodeBalancerHeap)
    ∧ ListInstanceConfigs sampleLib
        (pagesInstanceConfigs [.ok { Data := [0, 1] }, .ok { Data := [2] }])
        sampleInstanceConfigHeap 7
      = .ret (([0, 1, 2], none),
          fixDatesEach sampleLib [0, 1, 2] sampleInstanceConfigHeap) :=
  have h := list_returns_data_or_error sampleLib
    (pagesNodeBalancers [.ok { Data := [0, 1] }, .error (.api 500 "internal error")])
    (pagesInstanceConfigs [.ok { Data := [0, 1] }, .ok { Data := [2] }])
    sampleNodeBalancerHeap sampleInstanceConfigHeap 7
  ⟨h.1 { Data := [0, 1] } _ _ rfl, h.2.2.2.2.1 { Data := [0, 1, 2] } _ rfl⟩

/-! ### C9: request methods and paths -/

/-- The character of a digit denotes that digit. -/
theorem digitChar_toNat (d : Nat) (h : d < 10) : (digitChar d).toNat - 48 = d := by
  interval_cases d <;> rfl

/-- A digit character is not the minus sign. -/
theorem digitChar_ne_minus (d : Nat) (h : d < 10) : digitChar d ≠ '-' := by
  interval_cases d <;> decide

/-- The accumulator of `decimalAux` ends up behind the digits. -/
theorem decimalAux_append (fuel n : Nat) (acc : List Char) :
    decimalAux fuel n acc = decimalAux fuel n [] ++ acc := by
  induction fuel generalizing n acc with
  | zero => simp [decimalAux]
  | succ fuel ih =>
    simp only [decimalAux]
    by_cases h : n < 10
    · simp [h]
    · simp only [h, if_false]
      rw [ih (n / 10) (digitChar (n % 10) :: acc), ih (n / 10) [digitChar (n % 10)]]
      simp

/-- Reading one more digit multiplies by ten and adds the digit. -/
theorem digitsValue_append_single (l : List Char) (c : Char) :
    digitsValue (l ++ [c]) = digitsValue l * 10 + (c.toNat - 48) := by
  simp [digitsValue, List.foldl_append]

/-- With enough fuel, the digits of `n` denote `n`. -/
theorem digitsValue_decimalAux (fuel n : Nat) (h : n < fuel) :
    digitsValue (decimalAux fuel n []) = n := by
  induction fuel generalizing n with
  | zero => omega
  | succ fuel ih =>
    simp only [decimalAux]
    by_cases h10 : n < 10
    · simp [h10, digitsValue, digitChar_toNat n h10]
    · simp only [h10, if_false]
      rw [decimalAux_append, digitsValue_append_single, ih (n / 10) (by omega),
        digitChar_toNat (n % 10) (by omega)]
      omega

/-- The decimal rendering of `n` denotes `n`. -/
theorem digitsValue_decimal (n : Nat) : digitsValue (decimal n) = n :=
  digitsValue_decimalAux (n + 1) n (by omega)

/-- No minus sign occurs among the digits of a number. -/
theorem minus_not_mem_decimalAux (fuel n : Nat) : '-' ∉ decimalAux fuel n [] := by
  induction fuel generalizing n with
  | zero => simp [decimalAux]
  | succ fuel ih =>
    simp only [decimalAux]
    by_cases h10 : n < 10
    · simp [h10, (digitChar_ne_minus n h10).symm]
    · simp only [h10, if_false]
      rw [decimalAux_append]
      simp [ih (n / 10), (digitChar_ne_minus (n % 10) (by omega)).symm]

/-- Two integers with the same `%d` rendering are equal. -/
theorem fmtInt_injective (i j : Int) (h : fmtInt i = fmtInt j) : i = j := by
  unfold fmtInt at h
  by_cases hi : i < 0 <;> by_cases hj : j < 0
  · simp only [hi, hj, if_true] at h
    have h1 : decimal i.natAbs = decimal j.natAbs := by
      have := congrArg String.data h
      simpa using this
    have := congrArg digitsValue h1
    rw [digitsValue_decimal, digitsValue_decimal] at this
    omega
  · simp only [hi, hj, if_true, if_false] at h
    have h1 : '-' :: decimal i.natAbs = decimal j.toNat := congrArg String.data h
    exact absurd (h1 ▸ List.mem_cons_self _ _) (minus_not_mem_decimalAux _ _)
  · simp only [hi, hj, if_true, if_false] at h
    have h1 : decimal i.toNat = '-' :: decimal j.natAbs := congrArg String.data h
    exact absurd (h1 ▸ List.mem_cons_self _ _) (minus_not_mem_decimalAux _ _)
  · simp only [hi, hj, if_false] at h
    have h1 : decimal i.toNat = decimal j.toNat := congrArg String.data h
    have := congrArg digitsValue h1
    rw [digitsValue_decimal, digitsValue_decimal] at this
    omega

/-- Two identifiers that give the same path under the same endpoint are equal. -/
theorem sprintfPath_injective (e : String) (i j : Int) (h : sprintfPath e i = sprintfPath e j) :
    i = j := by
  apply fmtInt_injective
  unfold sprintfPath at h
  have := congrArg String.data h
  simp only [String.data_append, List.append_assoc, List.append_cancel_left_eq] at this
  exact String.ext this

/-- A digit character passes `isDigit`. -/
theorem digitChar_isDigit (d : Nat) (h : d < 10) : (digitChar d).isDigit = true := by
  interval_cases d <;> rfl

/-- A digit character is not the plus sign. -/
theorem digitChar_ne_plus (d : Nat) (h : d < 10) : digitChar d ≠ '+' := by
  interval_cases d <;> decide

/-- With fuel, the rendering of a number is a digit followed by digits. -/
theorem decimalAux_shape (fuel n : Nat) (hf : 0 < fuel) :
    ∃ d rest, d < 10 ∧ decimalAux fuel n [] = digitChar d :: rest
      ∧ rest.all Char.isDigit = true := by
  induction fuel generalizing n with
  | zero => omega
  | succ fuel ih =>
    simp only [decimalAux]
    by_cases h10 : n < 10
    · exact ⟨n, [], h10, by simp [h10], rfl⟩
    · simp only [h10, if_false]
      rw [decimalAux_append]
      rcases Nat.eq_zero_or_pos fuel with h0 | hpos
      · subst h0
        exact ⟨n % 10, [], by omega, by simp [decimalAux], rfl⟩
      · obtain ⟨d, rest, hd, hEq, hall⟩ := ih (n / 10) hpos
        refine ⟨d, rest ++ [digitChar (n % 10)], hd, by simp [hEq], ?_⟩
        simp [List.all_append, hall, digitChar_isDigit (n % 10) (by omega)]

/-- The rendering `%d` of an `int` is read back by `strconv.Atoi` as that `int`, without error:
`fmtInt` is the decimal rendering. -/
theorem atoi_fmtInt (i : Int) (hlo : -(2 ^ 63) ≤ i) (hhi : i < 2 ^ 63) :
    atoi (fmtInt i) = (i, none) := by
  unfold fmtInt
  by_cases hi : i < 0
  · simp only [hi, if_true]
    obtain ⟨d, rest, hd, hEq, hall⟩ := decimalAux_shape (i.natAbs + 1) i.natAbs (by omega)
    have hv := digitsValue_decimal i.natAbs
    have hEq2 : decimal i.natAbs = digitChar d :: rest := hEq
    have hall2 : (decimal i.natAbs).all Char.isDigit = true := by
      rw [hEq2]; simp [digitChar_isDigit d hd, hall]
    have hne : decimal i.natAbs ≠ [] := by rw [hEq2]; simp
    unfold atoi
    simp only [hne, hall2, hv, false_or, Bool.true_eq_false, if_false, if_true]
    have : ¬ (2 ^ 63 < i.natAbs) := by omega
    simp only [this, if_false]
    congr 1
    omega
  · simp only [hi, if_false]
    obtain ⟨d, rest, hd, hEq, hall⟩ := decimalAux_shape (i.toNat + 1) i.toNat (by omega)
    have hv := digitsValue_decimal i.toNat
    have hEq2 : decimal i.toNat = digitChar d :: rest := hEq
    have hall2 : (decimal i.toNat).all Char.isDigit = true := by
      rw [hEq2]; simp [digitChar_isDigit d hd, hall]
    have hne : decimal i.toNat ≠ [] := by rw [hEq2]; simp
    have hsig : (match (String.mk (decimal i.toNat)).data with
        | '-' :: rest => (true, rest)
        | '+' :: rest => (false, rest)
        | cs => (false, cs)) = (false, decimal i.toNat) := by
      show (match decimal i.toNat with
        | '-' :: rest => (true, rest)
        | '+' :: rest => (false, rest)
        | cs => (false, cs)) = (false, decimal i.toNat)
      rw [hEq2]
      split
      · next heq =>
        simp only [List.cons.injEq] at heq
        exact absurd heq.1 (digitChar_ne_minus d hd)
      · next heq =>
        simp only [List.cons.injEq] at heq
        exact absurd heq.1 (digitChar_ne_plus d hd)
      · rfl
    unfold atoi
    simp only [hsig, hne, hall2, hv, false_or, Bool.true_eq_false, if_false]
    have : ¬ (2 ^ 63 ≤ i.toNat) := by omega
    simp only [this, if_false, Bool.false_eq_true]
    congr 1
    omega

/-- C9: for every endpoint `e` that the resolution of an operation gives (the NodeBalancers
endpoint for a NodeBalancer operation, the InstanceConfigs endpoint resolved from the parent
`linodeID` for an InstanceConfig operation, whatever the other family's endpoint does) and
every id, Get issues a GET, Update a PUT and Delete a DELETE to exactly `e`, `/` and the
decimal rendering of the id, and Create issues a POST to `e` itself. Each of these is the one
request added to the log (for Create and Update, once the options serialize to `body`, which is
sent as the body). The rendering is the one `strconv.Atoi` reads back, and two different ids
never give the same path for the same endpoint. -/
theorem requests_go_to_endpoint_slash_id (lib : Lib) (c : Client) :
    (∀ (net : Net NodeBalancer) (id : Int) (e : String),
        c.NodeBalancers.Endpoint = .ok e →
        (GetNodeBalancer lib c net id).2.log
          = net.log ++ [{ method := .GET, url := e ++ "/" ++ fmtInt id }])
    ∧ (∀ (marshal : NodeBalancerUpdateOptions → Except GoError JSON) (net : Net NodeBalancer)
        (id : Int) (opts : NodeBalancerUpdateOptions) (body : JSON) (e : String),
        c.NodeBalancers.Endpoint = .ok e → marshal opts = .ok body →
        (UpdateNodeBalancer lib c marshal net id opts).2.log
          = net.log ++ [{ method := .PUT, url := e ++ "/" ++ fmtInt id, body := some body }])
    ∧ (∀ (ρ : Type) (net : Net ρ) (id : Int) (e : String),
        c.NodeBalancers.Endpoint = .ok e →
        (DeleteNodeBalancer c net id).2.log
          = net.log ++ [{ method := .DELETE, url := e ++ "/" ++ fmtInt id }])
    ∧ (∀ (marshal : Option NodeBalancerCreateOptions → Except GoError JSON)
        (net : Net NodeBalancer) (opts : Option NodeBalancerCreateOptions) (body : JSON)
        (e : String),
        c.NodeBalancers.Endpoint = .ok e → marshal opts = .ok body →
        (CreateNodeBalancer lib c marshal net opts).2.log
          = net.log ++ [{ method := .POST, url := e,
                          headers := [("Content-Type", "application/json")],
                          body := some body }])
    ∧ (∀ (net : Net InstanceConfig) (linodeID configID : Int) (e : String),
        c.InstanceConfigs.endpointWithID linodeID = .ok e →
        (GetInstanceConfig lib c net linodeID configID).2.log
          = net.log ++ [{ method := .GET, url := e ++ "/" ++ fmtInt configID }])
    ∧ (∀ (marshal : InstanceConfigUpdateOptions → Except GoError JSON)
        (net : Net InstanceConfig) (linodeID configID : Int)
        (opts : InstanceConfigUpdateOptions) (body : JSON) (e : String),
        c.InstanceConfigs.endpointWithID linodeID = .ok e → marshal opts = .ok body →
        (UpdateInstanceConfig lib c marshal net linodeID configID opts).2.log
          = net.log ++ [{ method := .PUT, url := e ++ "/" ++ fmtInt configID,
                          body := some body }])
    ∧ (∀ (ρ : Type) (net : Net ρ) (linodeID configID : Int) (e : String),
        c.InstanceConfigs.endpointWithID linodeID = .ok e →
        (DeleteInstanceConfig c net linodeID configID).2.log
          = net.log ++ [{ method := .DELETE, url := e ++ "/" ++ fmtInt configID }])
    ∧ (∀ (marshal : InstanceConfigCreateOptions → Except GoError JSON)
        (net : Net InstanceConfig) (linodeID : Int) (opts : InstanceConfigCreateOptions)
        (body : JSON) (e : String),
        c.InstanceConfigs.endpointWithID linodeID = .ok e → marshal opts = .ok body →
        (CreateInstanceConfig lib c marshal net linodeID opts).2.log
          = net.log ++ [{ method := .POST, url := e, body := some body }])
    ∧ (∀ id : Int, -(2 ^ 63) ≤ id → id < 2 ^ 63 → atoi (fmtInt id) = (id, none))
    ∧ (∀ (base : String) (id1 id2 : Int),
        base ++ "/" ++ fmtInt id1 = base ++ "/" ++ fmtInt id2 → id1 = id2) := by
  refine ⟨?_, ?_, ?_, ?_, ?_, ?_, ?_, ?_, ?_, ?_⟩
  · intro net id e he
    simp only [GetNodeBalancer, he, Net.send, sprintfPath]
    cases net.reply net.log _ <;> rfl
  · intro marshal net id opts body e he hm
    simp only [UpdateNodeBalancer, he, hm, Net.send, sprintfPath]
    cases net.reply net.log _ <;> rfl
  · intro ρ net id e he
    simp only [DeleteNodeBalancer, he, Net.send, sprintfPath]
    cases net.reply net.log _ <;> rfl
  · intro marshal net opts body e he hm
    simp only [CreateNodeBalancer, he, hm, Net.send]
    cases net.reply net.log _ <;> rfl
  · intro net linodeID configID e he
    simp only [GetInstanceConfig, he, Net.send, sprintfPath]
    cases net.reply net.log _ <;> rfl
  · intro marshal net linodeID configID opts body e he hm
    simp only [UpdateInstanceConfig, he, hm, Net.send, sprintfPath]
    cases net.reply net.log _ <;> rfl
  · intro ρ net linodeID configID e he
    simp only [DeleteInstanceConfig, he, Net.send, sprintfPath]
    cases net.reply net.log _ <;> rfl
  · intro marshal net linodeID opts body e he hm
    simp only [CreateInstanceConfig, he, hm, Net.send]
    cases net.reply net.log _ <;> rfl
  · intro id hlo hhi
    exact atoi_fmtInt id hlo hhi
  · intro base id1 id2 h
    exact sprintfPath_injective base id1 id2 h

/-- C9 at concrete clients: NodeBalancer 123 is fetched with a GET to
`.../nodebalancers/123`; config 3 of instance 7 is deleted with a DELETE to
`.../linode/instances/7/configs/3`, also by a client whose NodeBalancers endpoint does not
resolve; and config 3 is updated with a PUT to the same path carrying the serialized
options. -/
theorem requests_go_to_endpoint_slash_id_witness :
    (GetNodeBalancer sampleLib sampleClient (echoNet sampleNodeBalancer) 123).2.log
      = (echoNet sampleNodeBalancer).log ++
          [{ method := .GET,
             url := "https://api.linode.com/v4/nodebalancers" ++ "/" ++ fmtInt 123 }]
    ∧ (DeleteInstanceConfig halfBrokenClient (echoNet sampleInstanceConfig) 7 3).2.log
      = (echoNet sampleInstanceConfig).log ++
          [{ method := .DELETE,
             url := "https://api.linode.com/v4/linode/instances/7/configs" ++ "/"
               ++ fmtInt 3 }]
    ∧ (UpdateInstanceConfig sampleLib halfBrokenClient marshalInstanceConfigOptions
        (echoNet sampleInstanceConfig) 7 3 { Label := "web" }).2.log
      = (echoNet sampleInstanceConfig).log ++
          [{ method := .PUT,
             url := "https://api.linode.com/v4/linode/instances/7/configs" ++ "/"
               ++ fmtInt 3,
             body := some (InstanceConfigCreateOptions.toJSON { Label := "web" }) }]
    ∧ fmtInt 123 = "123" :=
  ⟨(requests_go_to_endpoint_slash_id sampleLib sampleClient).1 _ 123 _ rfl,
   (requests_go_to_endpoint_slash_id sampleLib halfBrokenClient).2.2.2.2.2.2.1 _ _ 7 3 _ rfl,
   (requests_go_to_endpoint_slash_id sampleLib halfBrokenClient).2.2.2.2.2.1
     marshalInstanceConfigOptions _ 7 3 { Label := "web" } _ _ rfl rfl,
   by decide⟩

/-! ### C10: no operation retries -/

/-- C10: every call of Get, Create, Update or Delete, of either family, adds at most one
request to the log of requests issued; it adds none when endpoint resolution fails or when the
options do not serialize; and when the one request it issues fails with `err`, it returns `err`
with a nil record and the log holds just that one request more, whatever a further request
would have been answered. -/
theorem no_operation_retries (lib : Lib) (c : Client) :
    (∀ (net : Net NodeBalancer) (id : Int),
        (∃ l, l.length ≤ 1 ∧ (GetNodeBalancer lib c net id).2.log = net.log ++ l)
        ∧ (∀ err, c.NodeBalancers.Endpoint = .error err →
            (GetNodeBalancer lib c net id).2.log = net.log)
        ∧ (∀ e err, c.NodeBalancers.Endpoint = .ok e →
            net.reply net.log { method := .GET, url := sprintfPath e id } = .error err →
            (GetNodeBalancer lib c net id).1 = (none, some err)
            ∧ (GetNodeBalancer lib c net id).2.log
              = net.log ++ [{ method := .GET, url := sprintfPath e id }]))
    ∧ (∀ (marshal : Option NodeBalancerCreateOptions → Except GoError JSON)
        (net : Net NodeBalancer) (opts : Option NodeBalancerCreateOptions),
        (∃ l, l.length ≤ 1 ∧ (CreateNodeBalancer lib c marshal net opts).2.log = net.log ++ l)
        ∧ (∀ err, c.NodeBalancers.Endpoint = .error err →
            (CreateNodeBalancer lib c marshal net opts).2.log = net.log)
        ∧ (∀ err, marshal opts = .error err →
            (CreateNodeBalancer lib c marshal net opts).2.log = net.log)
        ∧ (∀ e body err, c.NodeBalancers.Endpoint = .ok e → marshal opts = .ok body →
            net.reply net.log
                { method := .POST, url := e, headers := [("Content-Type", "application/json")],
                  body := some body } = .error err →
            (CreateNodeBalancer lib c marshal net opts).1 = (none, some err)
            ∧ (CreateNodeBalancer lib c marshal net opts).2.log
              = net.log ++ [{ method := .POST, url := e,
                              headers := [("Content-Type", "application/json")],
                              body := some body }]))
    ∧ (∀ (marshal : NodeBalancerUpdateOptions → Except GoError JSON) (net : Net NodeBalancer)
        (id : Int) (opts : NodeBalancerUpdateOptions),
        (∃ l, l.length ≤ 1
          ∧ (UpdateNodeBalancer lib c marshal net id opts).2.log = net.log ++ l)
        ∧ (∀ err, c.NodeBalancers.Endpoint = .error err →
            (UpdateNodeBalancer lib c marshal net id opts).2.log = net.log)
        ∧ (∀ err, marshal opts = .error err →
            (UpdateNodeBalancer lib c marshal net id opts).2.log = net.log)
        ∧ (∀ e body err, c.NodeBalancers.Endpoint = .ok e → marshal opts = .ok body →
            net.reply net.log { method := .PUT, url := sprintfPath e id, body := some body }
              = .error err →
            (UpdateNodeBalancer lib c marshal net id opts).1 = (none, some err)
            ∧ (UpdateNodeBalancer lib c marshal net id opts).2.log
              = net.log ++ [{ method := .PUT, url := sprintfPath e id, body := some body }]))
    ∧ (∀ (ρ : Type) (net : Net ρ) (id : Int),
        (∃ l, l.length ≤ 1 ∧ (DeleteNodeBalancer c net id).2.log = net.log ++ l)
        ∧ (∀ err, c.NodeBalancers.Endpoint = .error err →
            (DeleteNodeBalancer c net id).2.log = net.log)
        ∧ (∀ e err, c.NodeBalancers.Endpoint = .ok e →
            net.reply net.log { method := .DELETE, url := sprintfPath e id } = .error err →
            (DeleteNodeBalancer c net id).1 = some err
            ∧ (DeleteNodeBalancer c net id).2.log
              = net.log ++ [{ method := .DELETE, url := sprintfPath e id }]))
    ∧ (∀ (net : Net InstanceConfig) (linodeID configID : Int),
        (∃ l, l.length ≤ 1
          ∧ (GetInstanceConfig lib c net linodeID configID).2.log = net.log ++ l)
        ∧ (∀ err, c.InstanceConfigs.endpointWithID linodeID = .error err →
            (GetInstanceConfig lib c net linodeID configID).2.log = net.log)
        ∧ (∀ e err, c.InstanceConfigs.endpointWithID linodeID = .ok e →
            net.reply net.log { method := .GET, url := sprintfPath e configID } = .error err →
            (GetInstanceConfig lib c net linodeID configID).1 = (none, some err)
            ∧ (GetInstanceConfig lib c net linodeID configID).2.log
              = net.log ++ [{ method := .GET, url := sprintfPath e configID }]))
    ∧ (∀ (marshal : InstanceConfigCreateOptions → Except GoError JSON)
        (net : Net InstanceConfig) (linodeID : Int) (opts : InstanceConfigCreateOptions),
        (∃ l, l.length ≤ 1
          ∧ (CreateInstanceConfig lib c marshal net linodeID opts).2.log = net.log ++ l)
        ∧ (∀ err, c.InstanceConfigs.endpointWithID linodeID = .error err →
            (CreateInstanceConfig lib c marshal net linodeID opts).2.log = net.log)
        ∧ (∀ err, marshal opts = .error err →
            (CreateInstanceConfig lib c marshal net linodeID opts).2.log = net.log)
        ∧ (∀ e body err, c.InstanceConfigs.endpointWithID linodeID = .ok e →
            marshal opts = .ok body →
            net.reply net.log { method := .POST, url := e, body := some body } = .error err →
            (CreateInstanceConfig lib c marshal net linodeID opts).1 = (none, some err)
            ∧ (CreateInstanceConfig lib c marshal net linodeID opts).2.log
              = net.log ++ [{ method := .POST, url := e, body := some body }]))
    ∧ (∀ (marshal : InstanceConfigUpdateOptions → Except GoError JSON)
        (net : Net InstanceConfig) (linodeID configID : Int)
        (opts : InstanceConfigUpdateOptions),
        (∃ l, l.length ≤ 1
          ∧ (UpdateInstanceConfig lib c marshal net linodeID configID opts).2.log
            = net.log ++ l)
        ∧ (∀ err, c.InstanceConfigs.endpointWithID linodeID = .error err →
            (UpdateInstanceConfig lib c marshal net linodeID configID opts).2.log = net.log)
        ∧ (∀ err, marshal opts = .error err →
            (UpdateInstanceConfig lib c marshal net linodeID configID opts).2.log = net.log)
        ∧ (∀ e body err, c.InstanceConfigs.endpointWithID linodeID = .ok e →
            marshal opts = .ok body →
            net.reply net.log
                { method := .PUT, url := sprintfPath e configID, body := some body }
              = .error err →
            (UpdateInstanceConfig lib c marshal net linodeID configID opts).1
              = (none, some err)
            ∧ (UpdateInstanceConfig lib c marshal net linodeID configID opts).2.log
              = net.log ++ [{ method := .PUT, url := sprintfPath e configID,
                              body := some body }]))
    ∧ (∀ (ρ : Type) (net : Net ρ) (linodeID configID : Int),
        (∃ l, l.length ≤ 1
          ∧ (DeleteInstanceConfig c net linodeID configID).2.log = net.log ++ l)
        ∧ (∀ err, c.InstanceConfigs.endpointWithID linodeID = .error err →
            (DeleteInstanceConfig c net linodeID configID).2.log = net.log)
        ∧ (∀ e err, c.InstanceConfigs.endpointWithID linodeID = .ok e →
            net.reply net.log { method := .DELETE, url := sprintfPath e configID }
              = .error err →
            (DeleteInstanceConfig c net linodeID configID).1 = some err
            ∧ (DeleteInstanceConfig c net linodeID configID).2.log
              = net.log ++ [{ method := .DELETE, url := sprintfPath e configID }])) := by
  refine ⟨?_, ?_, ?_, ?_, ?_, ?_, ?_, ?_⟩
  · intro net id
    refine ⟨?_, ?_, ?_⟩
    · rcases he : c.NodeBalancers.Endpoint with err | e
      · exact ⟨[], by simp, by simp [GetNodeBalancer, he]⟩
      · rcases hr : net.reply net.log
          { method := .GET, url := sprintfPath e id } with err | r
        · exact ⟨[_], by simp, by simp [GetNodeBalancer, Net.send, he, hr]; rfl⟩
        · exact ⟨[_], by simp, by simp [GetNodeBalancer, Net.send, he, hr]; rfl⟩
    · intro err he; simp [GetNodeBalancer, he]
    · intro e err he hr; simp [GetNodeBalancer, Net.send, he, hr]
  · intro marshal net opts
    refine ⟨?_, ?_, ?_, ?_⟩
    · rcases he : c.NodeBalancers.Endpoint with err | e
      · exact ⟨[], by simp, by simp [CreateNodeBalancer, he]⟩
      · rcases hm : marshal opts with err | body
        · exact ⟨[], by simp, by simp [CreateNodeBalancer, he, hm]⟩
        · rcases hr : net.reply net.log
            { method := .POST, url := e, headers := [("Content-Type", "application/json")],
              body := some body } with err | r
          · exact ⟨[_], by simp, by simp [CreateNodeBalancer, Net.send, he, hm, hr]; rfl⟩
          · exact ⟨[_], by simp, by simp [CreateNodeBalancer, Net.send, he, hm, hr]; rfl⟩
    · intro err he; simp [CreateNodeBalancer, he]
    · intro err hm
      simp only [CreateNodeBalancer]
      rcases c.NodeBalancers.Endpoint with err1 | e <;> simp [hm]
    · intro e body err he hm hr; simp [CreateNodeBalancer, Net.send, he, hm, hr]
  · intro marshal net id opts
    refine ⟨?_, ?_, ?_, ?_⟩
    · rcases he : c.NodeBalancers.Endpoint with err | e
      · exact ⟨[], by simp, by simp [UpdateNodeBalancer, he]⟩
      · rcases hm : marshal opts with err | body
        · exact ⟨[], by simp, by simp [UpdateNodeBalancer, he, hm]⟩
        · rcases hr : net.reply net.log
            { method := .PUT, url := sprintfPath e id, body := some body } with err | r
          · exact ⟨[_], by simp, by simp [UpdateNodeBalancer, Net.send, he, hm, hr]; rfl⟩
          · exact ⟨[_], by simp, by simp [UpdateNodeBalancer, Net.send, he, hm, hr]; rfl⟩
    · intro err he; simp [UpdateNodeBalancer, he]
    · intro err hm
      simp only [UpdateNodeBalancer]
      rcases c.NodeBalancers.Endpoint with err1 | e <;> simp [hm]
    · intro e body err he hm hr; simp [UpdateNodeBalancer, Net.send, he, hm, hr]
  · intro ρ net id
    refine ⟨?_, ?_, ?_⟩
    · rcases he : c.NodeBalancers.Endpoint with err | e
      · exact ⟨[], by simp, by simp [DeleteNodeBalancer, he]⟩
      · rcases hr : net.reply net.log
          { method := .DELETE, url := sprintfPath e id } with err | r
        · exact ⟨[_], by simp, by simp [DeleteNodeBalancer, Net.send, he, hr]; rfl⟩
        · exact ⟨[_], by simp, by simp [DeleteNodeBalancer, Net.send, he, hr]; rfl⟩
    · intro err he; simp [DeleteNodeBalancer, he]
    · intro e err he hr; simp [DeleteNodeBalancer, Net.send, he, hr]
  · intro net linodeID configID
    refine ⟨?_, ?_, ?_⟩
    · rcases he : c.InstanceConfigs.endpointWithID linodeID with err | e
      · exact ⟨[], by simp, by simp [GetInstanceConfig, he]⟩
      · rcases hr : net.reply net.log
          { method := .GET, url := sprintfPath e configID } with err | r
        · exact ⟨[_], by simp, by simp [GetInstanceConfig, Net.send, he, hr]; rfl⟩
        · exact ⟨[_], by simp, by simp [GetInstanceConfig, Net.send, he, hr]; rfl⟩
    · intro err he; simp [GetInstanceConfig, he]
    · intro e err he hr; simp [GetInstanceConfig, Net.send, he, hr]
  · intro marshal net linodeID opts
    refine ⟨?_, ?_, ?_, ?_⟩
    · rcases he : c.InstanceConfigs.endpointWithID linodeID with err | e
      · exact ⟨[], by simp, by simp [CreateInstanceConfig, he]⟩
      · rcases hm : marshal opts with err | body
        · exact ⟨[], by simp, by simp [CreateInstanceConfig, he, hm]⟩
        · rcases hr : net.reply net.log
            { method := .POST, url := e, body := some body } with err | r
          · exact ⟨[_], by simp, by simp [CreateInstanceConfig, Net.send, he, hm, hr]; rfl⟩
          · exact ⟨[_], by simp, by simp [CreateInstanceConfig, Net.send, he, hm, hr]; rfl⟩
    · intro err he; simp [CreateInstanceConfig, he]
    · intro err hm
      simp only [CreateInstanceConfig]
      rcases c.InstanceConfigs.endpointWithID linodeID with err1 | e <;> simp [hm]
    · intro e body err he hm hr; simp [CreateInstanceConfig, Net.send, he, hm, hr]
  · intro marshal net linodeID configID opts
    refine ⟨?_, ?_, ?_, ?_⟩
    · rcases he : c.InstanceConfigs.endpointWithID linodeID with err | e
      · exact ⟨[], by simp, by simp [UpdateInstanceConfig, he]⟩
      · rcases hm : marshal opts with err | body
        · exact ⟨[], by simp, by simp [UpdateInstanceConfig, he, hm]⟩
        · rcases hr : net.reply net.log
            { method := .PUT, url := sprintfPath e configID, body := some body } with err | r
          · exact ⟨[_], by simp, by simp [UpdateInstanceConfig, Net.send, he, hm, hr]; rfl⟩
          · exact ⟨[_], by simp, by simp [UpdateInstanceConfig, Net.send, he, hm, hr]; rfl⟩
    · intro err he; simp [UpdateInstanceConfig, he]
    · intro err hm
      simp only [UpdateInstanceConfig]
      rcases c.InstanceConfigs.endpointWithID linodeID with err1 | e <;> simp [hm]
    · intro e body err he hm hr; simp [UpdateInstanceConfig, Net.send, he, hm, hr]
  · intro ρ net linodeID configID
    refine ⟨?_, ?_, ?_⟩
    · rcases he : c.InstanceConfigs.endpointWithID linodeID with err | e
      · exact ⟨[], by simp, by simp [DeleteInstanceConfig, he]⟩
      · rcases hr : net.reply net.log
          { method := .DELETE, url := sprintfPath e configID } with err | r
        · exact ⟨[_], by simp, by simp [DeleteInstanceConfig, Net.send, he, hr]; rfl⟩
        · exact ⟨[_], by simp, by simp [DeleteInstanceConfig, Net.send, he, hr]; rfl⟩
    · intro err he; simp [DeleteInstanceConfig, he]
    · intro e err he hr; simp [DeleteInstanceConfig, Net.send, he, hr]

/-- C10 at a server that fails the first request with a 500 and would answer a second one:
`GetNodeBalancer` returns the 500 with a nil record after one request (a second call, issued by
the caller, does succeed); `UpdateNodeBalancer` with options that do not serialize, and
`DeleteInstanceConfig` with an endpoint that does not resolve, issue no request. -/
theorem no_operation_retries_witness :
    ((GetNodeBalancer sampleLib sampleClient
        (flakyNet (.api 500 "internal error") sampleNodeBalancer) 123).1
      = (none, some (.api 500 "internal error"))
      ∧ (GetNodeBalancer sampleLib sampleClient
          (flakyNet (.api 500 "internal error") sampleNodeBalancer) 123).2.log
        = (flakyNet (.api 500 "internal error") sampleNodeBalancer).log ++
            [{ method := .GET,
               url := sprintfPath "https://api.linode.com/v4/nodebalancers" 123 }])
    ∧ (GetNodeBalancer sampleLib sampleClient
        (GetNodeBalancer sampleLib sampleClient
          (flakyNet (.api 500 "internal error") sampleNodeBalancer) 123).2 123).1.2 = none
    ∧ (UpdateNodeBalancer sampleLib sampleClient
        (fun _ => .error (.other "json: unsupported value")) (echoNet sampleNodeBalancer) 123
        { Label := some "lb2" }).2.log = (echoNet sampleNodeBalancer).log
    ∧ (DeleteInstanceConfig brokenClient (echoNet sampleInstanceConfig) 7 3).2.log
      = (echoNet sampleInstanceConfig).log :=
  ⟨((no_operation_retries sampleLib sampleClient).1
      (flakyNet (.api 500 "internal error") sampleNodeBalancer) 123).2.2
      "https://api.linode.com/v4/nodebalancers" (.api 500 "internal error") rfl rfl,
   by decide,
   ((no_operation_retries sampleLib sampleClient).2.2.1
      (fun _ => .error (.other "json: unsupported value")) (echoNet sampleNodeBalancer) 123
      { Label := some "lb2" }).2.2.1 (.other "json: unsupported value") rfl,
   ((no_operation_retries sampleLib brokenClient).2.2.2.2.2.2.2 InstanceConfig
      (echoNet sampleInstanceConfig) 7 3).2.1 (.other "no endpoint for configs") rfl⟩

/-! ### C11: the option sets derived from a NodeBalancer -/

/-- C11: for every NodeBalancer record `n`, `GetUpdateOptions` and `GetCreateOptions` carry a
present `ClientConnThrottle` equal to `n.ClientConnThrottle` and the `Label` of `n`, and
`GetCreateOptions` carries the `Region` of `n`. So the payload serialized from
`GetUpdateOptions` always has the member `client_conn_throttle`, with the throttle of the
record as its value: for a record whose throttle is 0 the payload holds
`client_conn_throttle: 0`. -/
theorem derived_options_carry_throttle (n : NodeBalancer) :
    n.GetUpdateOptions.ClientConnThrottle = some n.ClientConnThrottle
    ∧ n.GetUpdateOptions.Label = n.Label
    ∧ n.GetCreateOptions.ClientConnThrottle = some n.ClientConnThrottle
    ∧ n.GetCreateOptions.Label = n.Label
    ∧ n.GetCreateOptions.Region = n.Region
    ∧ marshalNodeBalancerUpdateOptions n.GetUpdateOptions = .ok n.GetUpdateOptions.toJSON
    ∧ "client_conn_throttle" ∈ n.GetUpdateOptions.toJSON.keys
    ∧ ("client_conn_throttle", JSON.num n.ClientConnThrottle)
        ∈ n.GetUpdateOptions.toJSON.members
    ∧ ("client_conn_throttle", JSON.num 0)
        ∈ ({ n with ClientConnThrottle := 0 } : NodeBalancer).GetUpdateOptions.toJSON.members
    ∧ n.GetUpdateOptions.toJSON.members
      = (match n.Label with
          | some label => [("label", JSON.str label)]
          | none => [])
        ++ [("client_conn_throttle", JSON.num n.ClientConnThrottle)] := by
  refine ⟨rfl, rfl, rfl, rfl, rfl, rfl, ?_, ?_, ?_, ?_⟩
  · cases hl : n.Label <;>
      simp [NodeBalancer.GetUpdateOptions, NodeBalancerUpdateOptions.toJSON, JSON.keys,
        fieldPtrOmitEmpty, hl]
  · cases hl : n.Label <;>
      simp [NodeBalancer.GetUpdateOptions, NodeBalancerUpdateOptions.toJSON, JSON.members,
        fieldPtrOmitEmpty, hl]
  · cases hl : n.Label <;>
      simp [NodeBalancer.GetUpdateOptions, NodeBalancerUpdateOptions.toJSON, JSON.members,
        fieldPtrOmitEmpty, hl]
  · cases hl : n.Label <;>
      simp [NodeBalancer.GetUpdateOptions, NodeBalancerUpdateOptions.toJSON, JSON.members,
        fieldPtrOmitEmpty, hl]

/-! ### C12: what `fixDates` changes -/

/-- C12: for every NodeBalancer `n` and every InstanceConfig `i`, `fixDates` gives the record
with `Created` and `Updated` replaced by the parse results of `CreatedStr` and `UpdatedStr`
and every other field as it was (the identifier and the two strings included); the new
`Created` and `Updated` are functions of `CreatedStr` and `UpdatedStr` alone, so the result is
the same whatever `Created` and `Updated` held before; and applying `fixDates` twice gives the
same record as applying it once. -/
theorem fixDates_changes_only_timestamps (lib : Lib) (n : NodeBalancer) (i : InstanceConfig) :
    n.fixDates lib
      = { n with Created := (lib.parseDates n.CreatedStr).1,
                 Updated := (lib.parseDates n.UpdatedStr).1 }
    ∧ (n.fixDates lib).Created = (lib.parseDates n.CreatedStr).1
    ∧ (n.fixDates lib).Updated = (lib.parseDates n.UpdatedStr).1
    ∧ ((n.fixDates lib).ID = n.ID
      ∧ (n.fixDates lib).CreatedStr = n.CreatedStr
      ∧ (n.fixDates lib).UpdatedStr = n.UpdatedStr
      ∧ (n.fixDates lib).Label = n.Label
      ∧ (n.fixDates lib).Region = n.Region
      ∧ (n.fixDates lib).Hostname = n.Hostname
      ∧ (n.fixDates lib).IPv4 = n.IPv4
      ∧ (n.fixDates lib).IPv6 = n.IPv6
      ∧ (n.fixDates lib).ClientConnThrottle = n.ClientConnThrottle
      ∧ (n.fixDates lib).Transfer = n.Transfer)
    ∧ (∀ created updated : Option Time,
        ({ n with Created := created, Updated := updated } : NodeBalancer).fixDates lib
          = n.fixDates lib)
    ∧ (n.fixDates lib).fixDates lib = n.fixDates lib
    ∧ i.fixDates lib
      = { i with Created := (lib.parseDates i.CreatedStr).1,
                 Updated := (lib.parseDates i.UpdatedStr).1 }
    ∧ (i.fixDates lib).Created = (lib.parseDates i.CreatedStr).1
    ∧ (i.fixDates lib).Updated = (lib.parseDates i.UpdatedStr).1
    ∧ ((i.fixDates lib).ID = i.ID
      ∧ (i.fixDates lib).CreatedStr = i.CreatedStr
      ∧ (i.fixDates lib).UpdatedStr = i.UpdatedStr
      ∧ (i.fixDates lib).Label = i.Label
      ∧ (i.fixDates lib).Comments = i.Comments
      ∧ (i.fixDates lib).Devices = i.Devices
      ∧ (i.fixDates lib).Helpers = i.Helpers
      ∧ (i.fixDates lib).MemoryLimit = i.MemoryLimit
      ∧ (i.fixDates lib).Kernel = i.Kernel
      ∧ (i.fixDates lib).InitRD = i.InitRD
      ∧ (i.fixDates lib).RootDevice = i.RootDevice
      ∧ (i.fixDates lib).RunLevel = i.RunLevel
      ∧ (i.fixDates lib).VirtMode = i.VirtMode)
    ∧ (∀ created updated : Option Time,
        ({ i with Created := created, Updated := updated } : InstanceConfig).fixDates lib
          = i.fixDates lib)
    ∧ (i.fixDates lib).fixDates lib = i.fixDates lib := by
  refine ⟨rfl, rfl, rfl, ⟨rfl, rfl, rfl, rfl, rfl, rfl, rfl, rfl, rfl, rfl⟩, fun _ _ => rfl,
    rfl, rfl, rfl, rfl, ⟨rfl, rfl, rfl, rfl, rfl, rfl, rfl, rfl, rfl, rfl, rfl, rfl, rfl⟩,
    fun _ _ => rfl, rfl⟩

end Linodego
